import Mathlib

/-!
# Contract-risk front end: session store and shared-view resolver

A shallow embedding of the client-side logic of the contract-risk single-page
application: the axios instance with its two interceptors (`services/api.js`),
the session store (`contexts/AuthContext.jsx`), the route guard (`App.jsx`),
the toast queue (`contexts/ToastContext.jsx`) and the shared contract view
(`pages/SharedContractView.jsx`).

Handlers are written in a small state-and-exception monad `Js`, so that
`try`/`catch`/`finally` keep the shape they have in the source.  Every backend
answer is an explicit argument (`Outcome`) of the handler that awaits it.
-/

namespace ContractRisk

/-! ## JavaScript values -/

/-- JavaScript values as they reach this client: parsed JSON payloads and
`undefined`.  Numbers are restricted to the integers; an integer stands for the
double nearest to it, which is the number the JSON parser hands over. -/
inductive JsVal where
  | undefined
  | null
  | bool (b : Bool)
  | num (n : Int)
  | str (s : String)
  | arr (items : List JsVal)
  | obj (fields : List (String × JsVal))

namespace JsVal

/-- Truthiness, as tested by `if (v)`, `!v`, `v || d`. -/
def truthy : JsVal → Bool
  | undefined => false
  | null => false
  | bool b => b
  | num n => n != 0
  | str s => s != ""
  | arr _ => true
  | obj _ => true

/-- The values on which a property read throws: `null` and `undefined`. -/
def isNullish : JsVal → Bool
  | undefined => true
  | null => true
  | _ => false

/-- The expression `a || b`. -/
def or (a b : JsVal) : JsVal := if a.truthy then a else b

/-- Property lookup among the own fields of an object literal. -/
def lookupField (k : String) : List (String × JsVal) → JsVal
  | [] => undefined
  | (k', v) :: rest => if k' = k then v else lookupField k rest

/-- Number of binary digits of a natural number. -/
def bitLength (m : Nat) : Nat := (Nat.toDigits 2 m).length

/-- The double nearest to a natural number, ties to the even significand; the
result reaches `2 ^ 1024` when the number rounds to `Infinity`. -/
def roundToDouble (m : Nat) : Nat :=
  if bitLength m ≤ 53 then m
  else
    let shift := bitLength m - 53
    let q := m / 2 ^ shift
    let r := m % 2 ^ shift
    let half := 2 ^ (shift - 1)
    (if half < r ∨ (r = half ∧ q % 2 = 1) then q + 1 else q) * 2 ^ shift

/-- Among the two multiples of `p` around the double `d`, the one that reads
back as `d`, the nearest of the two when both do (the even one on a tie). -/
def shortestCandidate (d p : Nat) : Option Nat :=
  let lo := d / p * p
  let hi := lo + p
  if roundToDouble lo = d then
    if roundToDouble hi = d then
      if d - lo < hi - d then some lo
      else if hi - d < d - lo then some hi
      else if (lo / p) % 2 = 0 then some lo else some hi
    else some lo
  else if roundToDouble hi = d then some hi
  else none

/-- The number with the fewest significant digits that reads back as the double
`d`: the digits `Number::toString` prints. -/
def shortestDecimal (d : Nat) : Nat :=
  ((List.range (Nat.toDigits 10 d).length).findSome? fun i =>
    shortestCandidate d (10 ^ ((Nat.toDigits 10 d).length - (i + 1)))).getD d

/-- The significant digits of a digit string. -/
def dropTrailingZeros (digits : List Char) : List Char :=
  (digits.reverse.dropWhile fun c => c = '0').reverse

/-- The conversion `Number::toString` of ECMAScript on a non-negative integer:
plain digits up to 21 of them, exponent notation beyond, `Infinity` past the
largest double. -/
def natToJsString (m : Nat) : String :=
  if 1024 < bitLength (roundToDouble m) then "Infinity"
  else
    let digits := Nat.toDigits 10 (shortestDecimal (roundToDouble m))
    if digits.length ≤ 21 then String.mk digits
    else
      match dropTrailingZeros digits with
      | [] => "0"
      | [x] => String.mk [x] ++ "e+" ++ toString (digits.length - 1)
      | x :: rest => String.mk (x :: '.' :: rest) ++ "e+" ++ toString (digits.length - 1)

/-- The conversion `Number::toString` on an integer. -/
def numberToJsString (n : Int) : String :=
  if n < 0 then "-" ++ natToJsString n.natAbs else natToJsString n.natAbs

mutual
/-- The comma-separated conversion of the items of an array, `items.join(",")`. -/
def joinItems : List JsVal → String
  | [] => ""
  | [x] => itemString x
  | x :: y :: rest => itemString x ++ "," ++ joinItems (y :: rest)
/-- Conversion of a single array item: `null` and `undefined` give the empty string. -/
def itemString : JsVal → String
  | undefined => ""
  | null => ""
  | bool b => if b then "true" else "false"
  | num n => numberToJsString n
  | str s => s
  | arr items => joinItems items
  | obj _ => "[object Object]"
end

/-- String conversion `String(v)`, as applied by `localStorage.setItem` to the
value it stores. -/
def toJsString : JsVal → String
  | undefined => "undefined"
  | null => "null"
  | bool b => if b then "true" else "false"
  | num n => numberToJsString n
  | str s => s
  | arr items => joinItems items
  | obj _ => "[object Object]"

/-- Property read `v.k` on a value that is neither `null` nor `undefined`.  Only
object literals carry the property names this client reads; on every other
value the read gives `undefined`. -/
def prop (v : JsVal) (k : String) : JsVal :=
  match v with
  | obj fields => lookupField k fields
  | _ => undefined

end JsVal

/-! ## HTTP requests, answers and exceptions -/

/-- An outgoing request configuration: the part of an axios config this client sets. -/
structure Request where
  method : String
  url : String
  headers : List (String × String)
  data : JsVal

/-- An HTTP response as axios hands it over: status code and parsed body. -/
structure HttpResponse where
  status : Int
  data : JsVal

/-- A thrown JavaScript value: a `TypeError` raised by reading a property of
`null` or `undefined`, or the error axios rejects with, whose `response` is
absent when no answer arrived. -/
inductive JsError where
  | typeError
  | axios (response : Option HttpResponse)

/-- The expression `err.response`. -/
def JsError.response : JsError → Option HttpResponse
  | .typeError => none
  | .axios r => r

/-- The expression `err.response?.data?.detail`. -/
def JsError.detail (err : JsError) : JsVal :=
  match err.response with
  | none => .undefined
  | some r => if r.data.isNullish then .undefined else r.data.prop "detail"

/-- What the network does with one request: resolve with a response, or reject,
with the response of the backend when it sent one. -/
inductive Outcome where
  | resolved (response : HttpResponse)
  | rejected (response : Option HttpResponse)

/-- A call is answered 401 when it is rejected with a response of that status. -/
def Outcome.is401 : Outcome → Bool
  | .rejected (some r) => r.status == 401
  | _ => false

/-- Property read `v.k` as a statement: throws a `TypeError` on `null` and `undefined`. -/
def JsVal.get (v : JsVal) (k : String) : Except JsError JsVal :=
  if v.isNullish then .error .typeError else .ok (v.prop k)

/-! ## The toast queue (`contexts/ToastContext.jsx`) -/

/-- An entry of the toast list.  The identifier `Date.now() + Math.random()` is
supplied by the caller of `showToast` as a number. -/
structure Toast where
  id : Nat
  message : String
  type : String
  duration : Nat
deriving DecidableEq, Repr

/-! ## The page: browser state shared by all components, and a component state -/

/-- The state a handler runs in.  `authToken` is the entry of `localStorage`
under the key `'authToken'` (the only key the client uses), `href` is
`window.location.href`, `sent` records the requests dispatched so far, `toasts`
is the state of the `ToastProvider`, and `view` is the state of the component
the handler belongs to. -/
structure Env (σ : Type) where
  authToken : Option String
  href : String
  sent : List Request
  toasts : List Toast
  view : σ

/-- A JavaScript computation over the page: it ends normally with a value or
throws, and in both cases leaves a state behind. -/
def Js (σ α : Type) : Type := Env σ → Except JsError α × Env σ

namespace Js

/-- Normal completion with a value. -/
def ret {σ α : Type} (a : α) : Js σ α := fun env => (.ok a, env)

/-- The statement `throw e`. -/
def throw {σ α : Type} (e : JsError) : Js σ α := fun env => (.error e, env)

/-- Sequencing: a throw in the first part skips the second. -/
def seq {σ α β : Type} (m : Js σ α) (f : α → Js σ β) : Js σ β := fun env =>
  match m env with
  | (.ok a, env1) => f a env1
  | (.error e, env1) => (.error e, env1)

instance {σ : Type} : Monad (Js σ) where
  pure := ret
  bind := seq

/-- The statement `try body catch (err) handler`. -/
def tryCatch {σ α : Type} (body : Js σ α) (handler : JsError → Js σ α) : Js σ α := fun env =>
  match body env with
  | (.ok a, env1) => (.ok a, env1)
  | (.error e, env1) => handler e env1

/-- The statement `try body finally cleanup`: the cleanup runs on both exits and
the completion of the body is kept. -/
def tryFinally {σ α : Type} (body : Js σ α) (cleanup : Js σ Unit) : Js σ α := fun env =>
  match body env with
  | (r, env1) =>
    match cleanup env1 with
    | (.ok _, env2) => (r, env2)
    | (.error e, env2) => (.error e, env2)

/-- Lift the result of a property read. -/
def ofExcept {σ α : Type} : Except JsError α → Js σ α
  | .ok a => ret a
  | .error e => throw e

/-- Update of the component state (a `useState` setter). -/
def setView {σ : Type} (f : σ → σ) : Js σ Unit := fun env =>
  (.ok (), { env with view := f env.view })

/-- Read of the component state as the handler sees it. -/
def getView {σ : Type} : Js σ σ := fun env => (.ok env.view, env)

end Js

/-- Call of `localStorage.getItem('authToken')`. -/
def localStorage.getItem {σ : Type} : Js σ (Option String) := fun env =>
  (.ok env.authToken, env)

/-- Call of `localStorage.setItem('authToken', v)`: the value is stored as a string. -/
def localStorage.setItem {σ : Type} (v : JsVal) : Js σ Unit := fun env =>
  (.ok (), { env with authToken := some v.toJsString })

/-- Call of `localStorage.removeItem('authToken')`. -/
def localStorage.removeItem {σ : Type} : Js σ Unit := fun env =>
  (.ok (), { env with authToken := none })

/-- Assignment `window.location.href = url`. -/
def setLocationHref {σ : Type} (url : String) : Js σ Unit := fun env =>
  (.ok (), { env with href := url })

/-- Call of `showToast(message, type = 'info', duration = 5000)`: one entry is
appended to the list.  The removal scheduled with `setTimeout` is a later event
and does not run inside this call. -/
def showToast {σ : Type} (message : String) (type : Option String) (duration : Option Nat)
    (id : Nat) : Js σ Unit := fun env =>
  let newToast : Toast :=
    { id := id, message := message, type := type.getD "info", duration := duration.getD 5000 }
  (.ok (), { env with toasts := env.toasts ++ [newToast] })

/-- Call of `toast.success(message)`. -/
def toast.success {σ : Type} (message : String) (id : Nat) : Js σ Unit :=
  showToast message (some "success") none id

/-- Call of `toast.error(message)`. -/
def toast.error {σ : Type} (message : String) (id : Nat) : Js σ Unit :=
  showToast message (some "error") none id

/-! ## The axios instance and its interceptors (`services/api.js`) -/

/-- Assignment `headers[k] = v`. -/
def setHeader (k v : String) : List (String × String) → List (String × String)
  | [] => [(k, v)]
  | (k', v') :: rest => if k' = k then (k, v) :: rest else (k', v') :: setHeader k v rest

/-- Header read `headers[k]`. -/
def getHeader (k : String) : List (String × String) → Option String
  | [] => none
  | (k', v') :: rest => if k' = k then some v' else getHeader k rest

/-- The default headers of the instance created by `axios.create`. -/
def defaultHeaders : List (String × String) := [("Content-Type", "application/json")]

/-- The request interceptor: adds the bearer token when `localStorage` holds a
truthy one. -/
def requestInterceptor {σ : Type} (config : Request) : Js σ Request := do
  let token ← localStorage.getItem
  match token with
  | some t =>
    if t ≠ "" then
      pure { config with headers := setHeader "Authorization" ("Bearer " ++ t) config.headers }
    else
      pure config
  | none => pure config

/-- The test `error.response?.status === 401`. -/
def JsError.statusIs401 (error : JsError) : Bool :=
  match error.response with
  | some r => r.status == 401
  | none => false

/-- The error branch of the response interceptor. -/
def responseInterceptorError {σ α : Type} (error : JsError) : Js σ α := do
  if error.statusIs401 then
    localStorage.removeItem
    setLocationHref "/login"
  Js.throw error

/-- The configuration the request interceptor returns, as a function of the
stored token. -/
def withBearer (stored : Option String) (config : Request) : Request :=
  match stored with
  | some t =>
    if t ≠ "" then
      { config with headers := setHeader "Authorization" ("Bearer " ++ t) config.headers }
    else config
  | none => config

/-- The page the error branch of the response interceptor leaves behind. -/
def afterRejection {σ : Type} (error : JsError) (env : Env σ) : Env σ :=
  if error.statusIs401 then { env with authToken := none, href := "/login" } else env

/-- The page after the request has been handed to the network. -/
def afterDispatch {σ : Type} (config : Request) (env : Env σ) : Env σ :=
  { env with sent := env.sent ++ [withBearer env.authToken config] }

/-- Hand-over of a request to the network, recorded in `sent`. -/
def dispatch {σ : Type} (config : Request) : Js σ Unit := fun env =>
  (.ok (), { env with sent := env.sent ++ [config] })

/-- A request through the instance `api`: request interceptor, dispatch, then
the response interceptor on the answer. -/
def api.request {σ : Type} (config : Request) (out : Outcome) : Js σ HttpResponse := do
  let config1 ← requestInterceptor config
  dispatch config1
  match out with
  | .resolved response => pure response
  | .rejected response => responseInterceptorError (.axios response)

/-- Call of `api.get(url)`. -/
def api.get {σ : Type} (url : String) (out : Outcome) : Js σ HttpResponse :=
  api.request { method := "GET", url := url, headers := defaultHeaders, data := .undefined } out

/-- Call of `api.post(url, data)`. -/
def api.post {σ : Type} (url : String) (data : JsVal) (out : Outcome) : Js σ HttpResponse :=
  api.request { method := "POST", url := url, headers := defaultHeaders, data := data } out

/-- Call of `authAPI.login(credentials)`. -/
def authAPI.login {σ : Type} (credentials : JsVal) (out : Outcome) : Js σ JsVal := do
  let response ← api.post "/auth/login/email" credentials out
  pure response.data

/-- Call of `authAPI.register(userData)`. -/
def authAPI.register {σ : Type} (userData : JsVal) (out : Outcome) : Js σ JsVal := do
  let response ← api.post "/auth/register" userData out
  pure response.data

/-- Call of `authAPI.getCurrentUser()`. -/
def authAPI.getCurrentUser {σ : Type} (out : Outcome) : Js σ JsVal := do
  let response ← api.get "/users/me" out
  pure response.data

/-- Call of `sharingAPI.getSharedContract(token)`. -/
def sharingAPI.getSharedContract {σ : Type} (token : String) (out : Outcome) : Js σ JsVal := do
  let response ← api.get ("/contracts/shared/" ++ token) out
  pure response.data

/-- Call of `sharingAPI.submitFeedback(token, feedbackData)`. -/
def sharingAPI.submitFeedback {σ : Type} (token : String) (feedbackData : JsVal)
    (out : Outcome) : Js σ JsVal := do
  let response ← api.post ("/contracts/shared/" ++ token ++ "/feedback") feedbackData out
  pure response.data

/-- Call of `sharingAPI.getSharedComments(token)`. -/
def sharingAPI.getSharedComments {σ : Type} (token : String) (out : Outcome) : Js σ JsVal := do
  let response ← api.get ("/contracts/shared/" ++ token ++ "/comments") out
  pure response.data

/-! ## The session store (`contexts/AuthContext.jsx`) -/

/-- The React state of `AuthProvider`. -/
structure AuthState where
  user : JsVal
  loading : Bool
  error : JsVal

/-- The state `AuthProvider` is mounted with. -/
def AuthState.initial : AuthState := { user := .null, loading := true, error := .null }

/-- The value `login` and `register` return: `{success: true}` or
`{success: false, error}`. -/
inductive AuthResult where
  | success
  | failure (error : JsVal)

/-- The function `checkAuth`, run once when the provider is mounted. -/
def checkAuth (userOut : Outcome) : Js AuthState Unit := do
  let token ← localStorage.getItem
  if token.isSome ∧ token ≠ some "" then
    Js.tryCatch
      (do
        let response ← authAPI.getCurrentUser userOut
        Js.setView fun s => { s with user := response })
      (fun _ => localStorage.removeItem)
  Js.setView fun s => { s with loading := false }

/-- The function `login`. -/
def login (credentials : JsVal) (loginOut userOut : Outcome) : Js AuthState AuthResult :=
  Js.tryCatch
    (do
      Js.setView fun s => { s with error := .null }
      let response ← authAPI.login credentials loginOut
      let access_token ← Js.ofExcept (response.get "access_token")
      let userData ← Js.ofExcept (response.get "user")
      localStorage.setItem access_token
      if !userData.truthy then
        Js.tryCatch
          (do
            let userResponse ← authAPI.getCurrentUser userOut
            Js.setView fun s => { s with user := userResponse })
          (fun _ => do
            let email ← Js.ofExcept (credentials.get "email")
            Js.setView fun s => { s with user := .obj [("email", email)] })
      else
        Js.setView fun s => { s with user := userData }
      pure .success)
    (fun err => do
      let errorMessage := err.detail.or (.str "Login failed")
      Js.setView fun s => { s with error := errorMessage }
      pure (.failure errorMessage))

/-- The function `register`. -/
def register (userData : JsVal) (out : Outcome) : Js AuthState AuthResult :=
  Js.tryCatch
    (do
      Js.setView fun s => { s with error := .null }
      let response ← authAPI.register userData out
      let access_token ← Js.ofExcept (response.get "access_token")
      let newUser ← Js.ofExcept (response.get "user")
      localStorage.setItem access_token
      Js.setView fun s => { s with user := newUser }
      pure .success)
    (fun err => do
      let errorMessage := err.detail.or (.str "Registration failed")
      Js.setView fun s => { s with error := errorMessage }
      pure (.failure errorMessage))

/-- The function `logout`. -/
def logout : Js AuthState Unit := do
  localStorage.removeItem
  Js.setView fun s => { s with user := .null }
  Js.setView fun s => { s with error := .null }

/-! ## The route guard (`App.jsx`) -/

/-- What `ProtectedRoute` returns. -/
inductive Rendered where
  | loadingPlaceholder
  | navigate (target : String)
  | children
deriving DecidableEq, Repr

/-- The component `ProtectedRoute`, as a function of the session it reads. -/
def ProtectedRoute (session : AuthState) : Rendered :=
  if session.loading then .loadingPlaceholder
  else if !session.user.truthy then .navigate "/login"
  else .children

/-! ## The shared contract view (`pages/SharedContractView.jsx`) -/

/-- The feedback draft held in `feedbackForm`. -/
structure FeedbackForm where
  commenter_name : String
  commenter_email : String
  comment_text : String
  rating : Int
deriving DecidableEq, Repr

/-- The draft the form starts with and is reset to. -/
def FeedbackForm.initial : FeedbackForm :=
  { commenter_name := "", commenter_email := "", comment_text := "", rating := 5 }

/-- The draft as the request body it is sent as. -/
def FeedbackForm.toJs (f : FeedbackForm) : JsVal :=
  .obj [("commenter_name", .str f.commenter_name), ("commenter_email", .str f.commenter_email),
    ("comment_text", .str f.comment_text), ("rating", .num f.rating)]

/-- The React state of `SharedContractView`. -/
structure SharedView where
  contract : JsVal
  analysis : JsVal
  comments : JsVal
  loading : Bool
  error : JsVal
  showFeedback : Bool
  feedbackForm : FeedbackForm
  submitting : Bool

/-- The state `SharedContractView` is mounted with. -/
def SharedView.initial : SharedView :=
  { contract := .null, analysis := .null, comments := .arr [], loading := true, error := .null,
    showFeedback := false, feedbackForm := FeedbackForm.initial, submitting := false }

/-- The message `loadSharedContract` reports every failure with. -/
def shareLinkError : String := "This share link is invalid or has expired."

/-- The function `loadSharedContract`, for the token of the route. -/
def loadSharedContract (token : String) (out : Outcome) : Js SharedView Unit :=
  Js.tryFinally
    (Js.tryCatch
      (do
        let data ← sharingAPI.getSharedContract token out
        let contract ← Js.ofExcept (data.get "contract")
        Js.setView fun s => { s with contract := contract }
        let analysis ← Js.ofExcept (data.get "analysis")
        Js.setView fun s => { s with analysis := analysis.or .null }
        let comments ← Js.ofExcept (data.get "comments")
        Js.setView fun s => { s with comments := comments.or (.arr []) })
      (fun _ => Js.setView fun s => { s with error := .str shareLinkError }))
    (Js.setView fun s => { s with loading := false })

/-- The function `handleFeedbackSubmit`, with the draft of the render it was
created in; `toastId` is the identifier the toast it shows receives.  The call
`e.preventDefault()` it starts with has no effect on the state modelled here. -/
def handleFeedbackSubmit (token : String) (feedbackForm : FeedbackForm)
    (submitOut commentsOut : Outcome) (toastId : Nat) : Js SharedView Unit := do
  Js.setView fun s => { s with submitting := true }
  Js.tryFinally
    (Js.tryCatch
      (do
        let _ ← sharingAPI.submitFeedback token feedbackForm.toJs submitOut
        Js.setView fun s => { s with feedbackForm := FeedbackForm.initial }
        Js.setView fun s => { s with showFeedback := false }
        let refreshed ← sharingAPI.getSharedComments token commentsOut
        Js.setView fun s => { s with comments := refreshed }
        toast.success "Feedback submitted successfully!" toastId)
      (fun _ => toast.error "Failed to submit feedback. Please try again." toastId))
    (Js.setView fun s => { s with submitting := false })

/-- The click on the button `Submit Feedback`: its `onClick` is
`handleFeedbackSubmit`, called with the draft currently in the state.  The
button stands outside the `form` element, so the `required` attributes of the
inputs are not consulted. -/
def clickSubmitFeedback (token : String) (submitOut commentsOut : Outcome) (toastId : Nat) :
    Js SharedView Unit := do
  let s ← Js.getView
  handleFeedbackSubmit token s.feedbackForm submitOut commentsOut toastId

/-- How far the component function `SharedContractView` gets: it returns the
loading screen, it returns the `Link Expired` screen, or it has evaluated the
header of the contract page.  `contractHeader` says nothing on the rest of that
page (risk cards, risk factors, comments), which is not modelled. -/
inductive Screen where
  | loading
  | linkExpired (message : JsVal)
  | contractHeader (title : JsVal) (contract_type : JsVal)

/-- The component function `SharedContractView` up to the header of the
contract page: the two early returns, then the reads of `contract.title` and
`contract.contract_type`, which throw on an absent contract.  The result
`.ok (.contractHeader ..)` records that the header was evaluated, not that the
rest of the page is. -/
def SharedContractView.render (v : SharedView) : Except JsError Screen :=
  if v.loading then .ok .loading
  else if v.error.truthy then .ok (.linkExpired v.error)
  else
    match v.contract.get "title", v.contract.get "contract_type" with
    | .ok title, .ok ty => .ok (.contractHeader title ty)
    | .error e, _ => .error e
    | _, .error e => .error e

/-- The ways the `try` block of `loadSharedContract` throws: the call is
rejected, or it resolves with a payload whose properties cannot be read
(`null` or `undefined`). -/
def Outcome.fetchFails : Outcome → Bool
  | .rejected _ => true
  | .resolved r => r.data.isNullish

/-- The call resolves with a payload that carries a contract, that is, whose
`contract` is neither `null` nor `undefined`. -/
def Outcome.hasContract : Outcome → Bool
  | .rejected _ => false
  | .resolved r => !r.data.isNullish && !(r.data.prop "contract").isNullish

/-- The payload of a resolved call. -/
def Outcome.payload : Outcome → JsVal
  | .rejected _ => .undefined
  | .resolved r => r.data

/-! ## Sample pages -/

/-- A freshly mounted shared view in a browser that holds the token `abc`. -/
def signedInSharedPage : Env SharedView :=
  { authToken := some "abc", href := "/shared/tok", sent := [], toasts := [],
    view := SharedView.initial }

/-- A shared view in which a visitor has typed a feedback draft. -/
def draftedSharedPage : Env SharedView :=
  { authToken := none, href := "/shared/tok", sent := [], toasts := [],
    view := { SharedView.initial with
      loading := false, contract := .obj [("title", .str "NDA")], showFeedback := true,
      feedbackForm := { commenter_name := "Alice", commenter_email := "",
                        comment_text := "Looks fine", rating := 4 } } }

/-- A shared view that is ready and whose feedback form is open and untouched. -/
def emptyDraftSharedPage : Env SharedView :=
  { authToken := none, href := "/shared/tok", sent := [], toasts := [],
    view := { SharedView.initial with
      loading := false, contract := .obj [("title", .str "NDA")], showFeedback := true } }

/-! ## Runs of the session store -/

/-- An operation on the session: a call of `login`, `register` or `logout`, or
any other request through `api` (which passes the response interceptor). -/
inductive SessionOp where
  | login (credentials : JsVal) (loginOut userOut : Outcome)
  | register (userData : JsVal) (out : Outcome)
  | logout
  | call (config : Request) (out : Outcome)

/-- The page an operation leaves behind. -/
def SessionOp.run : SessionOp → Env AuthState → Env AuthState
  | .login credentials loginOut userOut, env => (ContractRisk.login credentials loginOut userOut env).2
  | .register userData out, env => (ContractRisk.register userData out env).2
  | .logout, env => (ContractRisk.logout env).2
  | .call config out, env => (api.request config out env).2

/-- Whether one of the answers given to the operation is a 401. -/
def SessionOp.answered401 : SessionOp → Bool
  | .login _ loginOut userOut => loginOut.is401 || userOut.is401
  | .register _ out => out.is401
  | .logout => false
  | .call _ out => out.is401

/-- The page after `checkAuth` has run on a freshly mounted provider, in a
browser that holds `stored` under `'authToken'`. -/
def mountedSession (stored : Option String) (href : String) (checkOut : Outcome) :
    Env AuthState :=
  (checkAuth checkOut
    { authToken := stored, href := href, sent := [], toasts := [], view := AuthState.initial }).2

/-- The page after a sequence of operations, each run to completion. -/
def runSession (ops : List SessionOp) (env : Env AuthState) : Env AuthState :=
  ops.foldl (fun e op => op.run e) env

/-- The state the session invariant excludes: a user in memory with no token
stored. -/
def userWithoutToken (env : Env AuthState) : Bool :=
  env.view.user.truthy && env.authToken.isNone

/-! ## The change-password page (`pages/ChangePassword.jsx`) -/

/-- Call of `authAPI.updatePassword(currentPassword, newPassword)`. -/
def authAPI.updatePassword {σ : Type} (currentPassword newPassword : String) (out : Outcome) :
    Js σ JsVal := do
  let response ← api.post "/auth/password-update"
    (.obj [("current_password", .str currentPassword), ("new_password", .str newPassword)]) out
  pure response.data

/-- The expression `s.length`: the number of UTF-16 code units of a string. -/
def jsLength (s : String) : Nat :=
  s.data.foldl (fun n c => n + if c.val < 0x10000 then 1 else 2) 0

/-- The three fields of the form. -/
structure PasswordForm where
  currentPassword : String
  newPassword : String
  confirmPassword : String
deriving DecidableEq, Repr

/-- The React state of `ChangePassword` that `handleSubmit` reads and writes. -/
structure ChangePasswordView where
  formData : PasswordForm
  isSubmitting : Bool
  isSuccess : Bool
  error : JsVal

/-- The state `ChangePassword` is mounted with. -/
def ChangePasswordView.initial : ChangePasswordView :=
  { formData := { currentPassword := "", newPassword := "", confirmPassword := "" },
    isSubmitting := false, isSuccess := false, error := .str "" }

/-- The function `handleSubmit` of `ChangePassword`, on the form data of the
current state.  Each `return` of the source is the end of a branch here; the
redirect scheduled with `setTimeout` after a success is a later event. -/
def handleSubmit (out : Outcome) : Js ChangePasswordView Unit := do
  let s ← Js.getView
  let formData := s.formData
  if formData.newPassword ≠ formData.confirmPassword then
    Js.setView fun s => { s with error := .str "New passwords do not match" }
  else if jsLength formData.newPassword < 8 then
    Js.setView fun s => { s with error := .str "New password must be at least 8 characters long" }
  else if formData.currentPassword = formData.newPassword then
    Js.setView fun s =>
      { s with error := .str "New password must be different from current password" }
  else do
    Js.setView fun s => { s with isSubmitting := true }
    Js.setView fun s => { s with error := .str "" }
    Js.tryFinally
      (Js.tryCatch
        (do
          let _ ← authAPI.updatePassword formData.currentPassword formData.newPassword out
          Js.setView fun s => { s with isSuccess := true })
        (fun err => Js.setView fun s =>
          { s with error := err.detail.or (.str "Failed to update password. Please try again.") }))
      (Js.setView fun s => { s with isSubmitting := false })

/-- A change-password page with the given form data, nothing submitted yet. -/
def passwordPage (formData : PasswordForm) : Env ChangePasswordView :=
  { authToken := some "abc", href := "/change-password", sent := [], toasts := [],
    view := { ChangePasswordView.initial with formData := formData } }

/-! ## Operations on the shared view -/

/-- What can happen to a mounted `SharedContractView`: a run of
`loadSharedContract` (the effect runs again when the token of the route
changes), a click on `Submit Feedback`, an edit of a field of the form, a click
on a rating star, and the opening or closing of the feedback dialog. -/
inductive SharedOp where
  | load (token : String) (out : Outcome)
  | submit (token : String) (submitOut commentsOut : Outcome) (toastId : Nat)
  | editName (value : String)
  | editEmail (value : String)
  | editText (value : String)
  | clickStar (rating : Int)
  | openFeedback
  | closeFeedback

/-- The page an operation on the shared view leaves behind. -/
def SharedOp.run : SharedOp → Env SharedView → Env SharedView
  | .load token out, env => (loadSharedContract token out env).2
  | .submit token submitOut commentsOut toastId, env =>
    (clickSubmitFeedback token submitOut commentsOut toastId env).2
  | .editName value, env =>
    { env with view := { env.view with
        feedbackForm := { env.view.feedbackForm with commenter_name := value } } }
  | .editEmail value, env =>
    { env with view := { env.view with
        feedbackForm := { env.view.feedbackForm with commenter_email := value } } }
  | .editText value, env =>
    { env with view := { env.view with
        feedbackForm := { env.view.feedbackForm with comment_text := value } } }
  | .clickStar rating, env =>
    { env with view := { env.view with
        feedbackForm := { env.view.feedbackForm with rating := rating } } }
  | .openFeedback, env => { env with view := { env.view with showFeedback := true } }
  | .closeFeedback, env => { env with view := { env.view with showFeedback := false } }

/-- The page after a sequence of operations on the shared view. -/
def runShared (ops : List SharedOp) (env : Env SharedView) : Env SharedView :=
  ops.foldl (fun e op => op.run e) env

/-- The view shows the `Link Expired` screen. -/
def SharedView.isExpired (v : SharedView) : Bool := !v.loading && v.error.truthy

/-- The view shows the contract page. -/
def SharedView.isReady (v : SharedView) : Bool := !v.loading && !v.error.truthy

/-- The test `if (token)` on a value read from `localStorage`. -/
def storedTokenTruthy : Option String → Bool
  | some t => t != ""
  | none => false

/-- A shared view that shows the contract `NDA`. -/
def readySharedPage : Env SharedView :=
  { authToken := none, href := "/shared/tok", sent := [], toasts := [],
    view := { SharedView.initial with
      loading := false, contract := .obj [("title", .str "NDA")] } }

/-- A freshly mounted provider in a browser that holds the token `abc`. -/
def signedInMount : Env AuthState :=
  { authToken := some "abc", href := "/dashboard", sent := [], toasts := [],
    view := AuthState.initial }

/-! ## Removal from the toast queue (`contexts/ToastContext.jsx`) -/

/-- Call of `removeToast(id)`. -/
def removeToast {σ : Type} (id : Nat) : Js σ Unit := fun env =>
  (.ok (), { env with toasts := env.toasts.filter fun toast => toast.id ≠ id })

/-- Call of `toast.warning(message)`. -/
def toast.warning {σ : Type} (message : String) (id : Nat) : Js σ Unit :=
  showToast message (some "warning") none id

/-! ## Risk classification (`pages/SharedContractView.jsx`, `pages/ContractDetail.jsx`) -/

/-- The expression `score || d` on a score, which is a number or absent
(`null` or `undefined`): the score when it is a number other than zero. -/
def scoreOr (score : Option Int) (d : Int) : Int :=
  match score with
  | some n => if n ≠ 0 then n else d
  | none => d

/-- The comparison `score >= n` on a score that may be absent: an absent score
compares as `NaN` (for `undefined`) or as `0` (for `null`), below every
threshold used here. -/
def scoreGe (score : Option Int) (n : Int) : Bool :=
  match score with
  | some k => decide (n ≤ k)
  | none => false

/-- The function `getRiskColor` of `SharedContractView`. -/
def SharedContractView.getRiskColor (score : Option Int) : String :=
  if scoreOr score 0 ≥ 70 then "#ef4444"
  else if scoreOr score 0 ≥ 40 then "#f59e0b"
  else "#10b981"

/-- The function `getRiskLevel` of `SharedContractView`. -/
def SharedContractView.getRiskLevel (score : Option Int) : String :=
  if scoreOr score 0 ≥ 70 then "High Risk"
  else if scoreOr score 0 ≥ 40 then "Medium Risk"
  else "Low Risk"

/-- The function `getRiskLevel` of `ContractDetail`. -/
def ContractDetail.getRiskLevel (score : Option Int) : String :=
  if scoreGe score 70 then "High Risk"
  else if scoreGe score 40 then "Medium Risk"
  else "Low Risk"

/-- The colour classes of the badge of a risk factor in `ContractDetail`, from
`factor.risk_score`. -/
def ContractDetail.factorBadgeClass (risk_score : Option Int) : String :=
  if scoreOr risk_score 0 ≥ 70 then "bg-red-100 text-red-800"
  else if scoreOr risk_score 0 ≥ 40 then "bg-yellow-100 text-yellow-800"
  else "bg-green-100 text-green-800"

/-- The number shown in the badge of a risk factor in `ContractDetail`:
`factor.risk_score || 50`. -/
def ContractDetail.factorBadgeNumber (risk_score : Option Int) : Int :=
  scoreOr risk_score 50

/-- The classification the badge is meant to show for a number: 70 and above
red, 40 to below 70 yellow, below 40 green. -/
def badgeClassOf (n : Int) : String :=
  if 70 ≤ n then "bg-red-100 text-red-800"
  else if 40 ≤ n then "bg-yellow-100 text-yellow-800"
  else "bg-green-100 text-green-800"

/-- The order of the risk levels: low, medium, high. -/
def riskRank (level : String) : Nat :=
  if level = "High Risk" then 2 else if level = "Medium Risk" then 1 else 0

/-! ## The upload form of the dashboard (`pages/Dashboard.jsx`) -/

/-- The characters `String.prototype.trim` removes: the white space and line
terminator code points of ECMAScript. -/
def isJsWhitespace (c : Char) : Bool :=
  c.val == 0x09 || c.val == 0x0A || c.val == 0x0B || c.val == 0x0C || c.val == 0x0D ||
  c.val == 0x20 || c.val == 0xA0 || c.val == 0x1680 ||
  (0x2000 ≤ c.val && c.val ≤ 0x200A) ||
  c.val == 0x2028 || c.val == 0x2029 || c.val == 0x202F || c.val == 0x205F ||
  c.val == 0x3000 || c.val == 0xFEFF

/-- The expression `s.trim()`. -/
def jsTrim (s : String) : String :=
  String.mk ((s.data.dropWhile isJsWhitespace).reverse.dropWhile isJsWhitespace).reverse

/-- A string that is empty or consists of white space only. -/
def isBlank (s : String) : Bool := s.data.all isJsWhitespace

/-- The state `uploadForm`. -/
structure UploadForm where
  title : String
  description : String
  contract_type : String
  custom_type : String
deriving DecidableEq, Repr

/-- The React state of `Dashboard` that the upload reads and writes;
`selectedFile` is `null` or the chosen file. -/
structure DashboardView where
  showUploadModal : Bool
  uploadForm : UploadForm
  selectedFile : JsVal
  isUploading : Bool

/-- Call of `contractsAPI.upload(file, metadata)`: the form data holds the file
and every metadata entry that is neither `undefined` nor `null`, and the request
overrides the content type. -/
def contractsAPI.upload {σ : Type} (file : JsVal) (metadata : List (String × JsVal))
    (out : Outcome) : Js σ JsVal := do
  let formData : JsVal :=
    .obj (("file", file) :: metadata.filter fun entry => !entry.2.isNullish)
  let response ← api.request
    { method := "POST", url := "/contracts/upload",
      headers := setHeader "Content-Type" "multipart/form-data" defaultHeaders,
      data := formData } out
  pure response.data

/-- Call of `uploadMutation.mutateAsync(data)`: the mutation function, then
`onSuccess` on a result, or `onError` on a failure, which is thrown again.  The
refetch that `invalidateQueries` triggers is a later event. -/
def uploadMutation.mutateAsync (file : JsVal) (metadata : List (String × JsVal))
    (out : Outcome) (toastId : Nat) : Js DashboardView JsVal :=
  Js.tryCatch
    (do
      let result ← contractsAPI.upload file metadata out
      Js.setView fun s => { s with showUploadModal := false }
      Js.setView fun s => { s with
        uploadForm := { title := "", description := "", contract_type := "", custom_type := "" } }
      Js.setView fun s => { s with selectedFile := .null }
      toast.success "Contract uploaded successfully!" toastId
      pure result)
    (fun error => do
      toast.error "Upload failed. Please try again." toastId
      Js.throw error)

/-- The function `handleUpload`, on the state of the render it was created in. -/
def handleUpload (out : Outcome) (toastId : Nat) : Js DashboardView Unit := do
  let s ← Js.getView
  let uploadForm := s.uploadForm
  if !s.selectedFile.truthy then
    pure ()
  else do
    Js.setView fun s => { s with isUploading := true }
    Js.tryFinally
      (do
        if uploadForm.contract_type = "custom" ∧
            (uploadForm.custom_type = "" ∨ jsTrim uploadForm.custom_type = "") then do
          toast.warning "Please enter a custom contract type." toastId
          Js.setView fun s => { s with isUploading := false }
        else do
          let normalizedContractType :=
            if uploadForm.contract_type = "custom" then jsTrim uploadForm.custom_type
            else uploadForm.contract_type
          let _ ← uploadMutation.mutateAsync s.selectedFile
            [("title", .str uploadForm.title), ("description", .str uploadForm.description),
             ("contract_type", .str normalizedContractType)] out toastId
          pure ())
      (Js.setView fun s => { s with isUploading := false })

/-- The request an upload of the given file and metadata hands to `api`. -/
def uploadRequest (file : JsVal) (title description contract_type : String) : Request :=
  { method := "POST", url := "/contracts/upload",
    headers := setHeader "Content-Type" "multipart/form-data" defaultHeaders,
    data := .obj [("file", file), ("title", .str title), ("description", .str description),
      ("contract_type", .str contract_type)] }

/-- A dashboard with a file chosen and the given upload form. -/
def uploadPage (uploadForm : UploadForm) : Env DashboardView :=
  { authToken := some "abc", href := "/dashboard", sent := [], toasts := [],
    view := { showUploadModal := true, uploadForm := uploadForm,
              selectedFile := .obj [("name", .str "nda.pdf")], isUploading := false } }

/-! ## The two halves of a shared-contract load -/

/-- The part of a request through `api` that runs when it is issued: the request
interceptor and the hand-over to the network. -/
def api.send {σ : Type} (config : Request) : Js σ Unit := do
  let config1 ← requestInterceptor config
  dispatch config1

/-- The part of a request through `api` that runs when the answer arrives: the
response interceptor. -/
def api.receive {σ : Type} (out : Outcome) : Js σ HttpResponse :=
  match out with
  | .resolved response => pure response
  | .rejected response => responseInterceptorError (.axios response)

/-- The part of `loadSharedContract` that runs when the effect fires: up to the
`await`, the request for the token is issued. -/
def loadSharedContractStart (token : String) : Js SharedView Unit :=
  api.send { method := "GET", url := "/contracts/shared/" ++ token, headers := defaultHeaders,
             data := .undefined }

/-- The part of `loadSharedContract` that runs when the answer arrives: the rest
of the `try` block, the `catch` and the `finally`. -/
def loadSharedContractResume (out : Outcome) : Js SharedView Unit :=
  Js.tryFinally
    (Js.tryCatch
      (do
        let response ← api.receive out
        let data := response.data
        let contract ← Js.ofExcept (data.get "contract")
        Js.setView fun s => { s with contract := contract }
        let analysis ← Js.ofExcept (data.get "analysis")
        Js.setView fun s => { s with analysis := analysis.or .null }
        let comments ← Js.ofExcept (data.get "comments")
        Js.setView fun s => { s with comments := comments.or (.arr []) })
      (fun _ => Js.setView fun s => { s with error := .str shareLinkError }))
    (Js.setView fun s => { s with loading := false })

/-- The page after the requests for an old and then a new token were issued and
both answers arrived, the stale one first or last. -/
def afterTwoLoads (oldToken newToken : String) (oldOut newOut : Outcome) (staleLast : Bool)
    (env : Env SharedView) : Env SharedView :=
  let issued := (loadSharedContractStart newToken (loadSharedContractStart oldToken env).2).2
  if staleLast then
    (loadSharedContractResume oldOut (loadSharedContractResume newOut issued).2).2
  else
    (loadSharedContractResume newOut (loadSharedContractResume oldOut issued).2).2

/-- The operations the rendered page offers: the rating stars are the buttons
for 1, 2, 3, 4 and 5. -/
def SharedOp.fromPage : SharedOp → Bool
  | .clickStar rating => decide (rating ∈ [1, 2, 3, 4, 5])
  | _ => true

/-- The rating a feedback request carries, when the request is one. -/
def feedbackRating (r : Request) : Option JsVal :=
  if r.method = "POST" then some (r.data.prop "rating") else none

/-- A rating between 1 and 5. -/
def ratingInRange (v : JsVal) : Bool :=
  match v with
  | .num n => decide (1 ≤ n) && decide (n ≤ 5)
  | _ => false

/-- A freshly mounted shared view, in a browser that holds `stored` under
`'authToken'`. -/
def freshSharedPage (stored : Option String) (href : String) : Env SharedView :=
  { authToken := stored, href := href, sent := [], toasts := [], view := SharedView.initial }

/-- The rating of the draft and the rating of every feedback request sent so far
lie between 1 and 5. -/
def ratingsInRange (env : Env SharedView) : Prop :=
  ratingInRange (.num env.view.feedbackForm.rating) = true ∧
  ∀ r ∈ env.sent, ∀ v, feedbackRating r = some v → ratingInRange v = true

/-! ## The two halves of a password update -/

/-- The part of `handleSubmit` that runs on the click: the three checks and, when
they pass, the two state updates and the issue of the request, up to the
`await`.  The result tells whether the request was issued. -/
def handleSubmitStart : Js ChangePasswordView Bool := do
  let s ← Js.getView
  let formData := s.formData
  if formData.newPassword ≠ formData.confirmPassword then
    Js.setView fun s => { s with error := .str "New passwords do not match" }
    pure false
  else if jsLength formData.newPassword < 8 then
    Js.setView fun s => { s with error := .str "New password must be at least 8 characters long" }
    pure false
  else if formData.currentPassword = formData.newPassword then
    Js.setView fun s =>
      { s with error := .str "New password must be different from current password" }
    pure false
  else do
    Js.setView fun s => { s with isSubmitting := true }
    Js.setView fun s => { s with error := .str "" }
    api.send { method := "POST", url := "/auth/password-update", headers := defaultHeaders,
               data := .obj [("current_password", .str formData.currentPassword),
                 ("new_password", .str formData.newPassword)] }
    pure true

/-- The part of `handleSubmit` that runs when the answer arrives: the rest of the
`try` block, the `catch` and the `finally`. -/
def handleSubmitResume (out : Outcome) : Js ChangePasswordView Unit :=
  Js.tryFinally
    (Js.tryCatch
      (do
        let _ ← api.receive out
        Js.setView fun s => { s with isSuccess := true })
      (fun err => Js.setView fun s =>
        { s with error := err.detail.or (.str "Failed to update password. Please try again.") }))
    (Js.setView fun s => { s with isSubmitting := false })

/-- The first half of `handleSubmit` followed, when a request was issued, by the
second half. -/
def handleSubmitInTwo (out : Outcome) : Js ChangePasswordView Unit := do
  let issued ← handleSubmitStart
  if issued then handleSubmitResume out else pure ()

/-- The message the specification asks of a failed `login` or `register`: the
`detail` field of the body of the error response when there is a response, its
body is an object and that field is not empty, and the fallback text in every
other case. -/
def specFailureMessage (resp : Option HttpResponse) (fallback : String) : JsVal :=
  match resp with
  | none => .str fallback
  | some r =>
    match r.data with
    | .obj fields =>
      if (JsVal.lookupField "detail" fields).truthy then JsVal.lookupField "detail" fields
      else .str fallback
    | _ => .str fallback

/-- A computation leaves the value stored under `'authToken'` as it was, from
every page and on both exits. -/
def keepsToken {σ α : Type} (m : Js σ α) : Prop :=
  ∀ env : Env σ, (m env).2.authToken = env.authToken

/-- Whether one of the answers given to an operation on the shared view is a 401. -/
def SharedOp.answered401 : SharedOp → Bool
  | .load _ out => out.is401
  | .submit _ submitOut commentsOut _ => submitOut.is401 || commentsOut.is401
  | _ => false

/-! ## How the instance `api` runs -/

/-- The request interceptor never throws and leaves the page as it is. -/
theorem requestInterceptor_run {σ : Type} (config : Request) (env : Env σ) :
    requestInterceptor config env = (.ok (withBearer env.authToken config), env) := by
  obtain ⟨tok, href, sent, toasts, view⟩ := env
  cases tok with
  | none => rfl
  | some t =>
    by_cases ht : t = ""
    · subst ht; rfl
    · simp [requestInterceptor, withBearer, localStorage.getItem, bind, Js.seq, pure, Js.ret, ht]

/-- The error branch of the response interceptor rethrows what it was given. -/
theorem responseInterceptorError_run {σ α : Type} (error : JsError) (env : Env σ) :
    (responseInterceptorError error : Js σ α) env = (.error error, afterRejection error env) := by
  cases h : error.statusIs401 <;>
    simp [responseInterceptorError, afterRejection, h, bind, Js.seq, pure, Js.ret, Js.throw,
      localStorage.removeItem, setLocationHref]

/-- A request through `api`, case by case on the answer. -/
theorem api_request_run {σ : Type} (config : Request) (out : Outcome) (env : Env σ) :
    api.request config out env =
      match out with
      | .resolved r => (.ok r, afterDispatch config env)
      | .rejected resp =>
        (.error (.axios resp), afterRejection (.axios resp) (afterDispatch config env)) := by
  cases out <;>
    simp [api.request, bind, Js.seq, requestInterceptor_run, dispatch, pure, Js.ret,
      responseInterceptorError_run, afterDispatch]

/-- A call that unwraps `response.data` after a request through `api`. -/
theorem api_data_run {σ : Type} (config : Request) (out : Outcome) (env : Env σ) :
    (Js.seq (api.request config out) fun response => Js.ret response.data) env =
      match out with
      | .resolved r => (.ok r.data, afterDispatch config env)
      | .rejected resp =>
        (.error (.axios resp), afterRejection (.axios resp) (afterDispatch config env)) := by
  cases out <;> simp [Js.seq, api_request_run, Js.ret]

/-- The token and the location after a rejection. -/
theorem afterRejection_session {σ : Type} (error : JsError) (env : Env σ) :
    ((afterRejection error env).authToken, (afterRejection error env).href) =
      if error.statusIs401 then (none, "/login") else (env.authToken, env.href) := by
  cases h : error.statusIs401 <;> simp [afterRejection, h]

/-- The call `sharingAPI.getSharedContract`, case by case on the answer. -/
theorem getSharedContract_run {σ : Type} (token : String) (out : Outcome) (env : Env σ) :
    sharingAPI.getSharedContract token out env =
      match out with
      | .resolved r => (.ok r.data, afterDispatch
          { method := "GET", url := "/contracts/shared/" ++ token, headers := defaultHeaders,
            data := .undefined } env)
      | .rejected resp => (.error (.axios resp), afterRejection (.axios resp) (afterDispatch
          { method := "GET", url := "/contracts/shared/" ++ token, headers := defaultHeaders,
            data := .undefined } env)) :=
  api_data_run _ out env

/-- The call `sharingAPI.submitFeedback`, case by case on the answer. -/
theorem submitFeedback_run {σ : Type} (token : String) (body : JsVal) (out : Outcome)
    (env : Env σ) :
    sharingAPI.submitFeedback token body out env =
      match out with
      | .resolved r => (.ok r.data, afterDispatch
          { method := "POST", url := "/contracts/shared/" ++ token ++ "/feedback",
            headers := defaultHeaders, data := body } env)
      | .rejected resp => (.error (.axios resp), afterRejection (.axios resp) (afterDispatch
          { method := "POST", url := "/contracts/shared/" ++ token ++ "/feedback",
            headers := defaultHeaders, data := body } env)) :=
  api_data_run _ out env

/-- The call `sharingAPI.getSharedComments`, case by case on the answer. -/
theorem getSharedComments_run {σ : Type} (token : String) (out : Outcome) (env : Env σ) :
    sharingAPI.getSharedComments token out env =
      match out with
      | .resolved r => (.ok r.data, afterDispatch
          { method := "GET", url := "/contracts/shared/" ++ token ++ "/comments",
            headers := defaultHeaders, data := .undefined } env)
      | .rejected resp => (.error (.axios resp), afterRejection (.axios resp) (afterDispatch
          { method := "GET", url := "/contracts/shared/" ++ token ++ "/comments",
            headers := defaultHeaders, data := .undefined } env)) :=
  api_data_run _ out env

/-- The token and the location after any call that unwraps `response.data`. -/
theorem api_data_session {σ : Type} (config : Request) (out : Outcome) (env : Env σ) :
    (((Js.seq (api.request config out) fun response => Js.ret response.data) env).2.authToken,
     ((Js.seq (api.request config out) fun response => Js.ret response.data) env).2.href) =
      if out.is401 then (none, "/login") else (env.authToken, env.href) := by
  rw [api_data_run]
  cases out with
  | resolved r => rfl
  | rejected resp =>
    simp only [afterRejection_session]
    cases resp <;> rfl


/-! ## Claims on the interceptors, the shared calls and the route guard -/

/-- C1, counterexample: with the token `abc` in `localStorage`, the request
issued by `sharingAPI.getSharedContract` carries `Authorization: Bearer abc`. -/
theorem getSharedContract_attaches_bearer :
    ((sharingAPI.getSharedContract "tok" (.rejected none) signedInSharedPage).2.sent.map
      fun r => getHeader "Authorization" r.headers) = [some "Bearer abc"] := by
  decide

/-- C1, amended: `sharingAPI.getSharedContract` issues exactly one request, a
`GET` of `/contracts/shared/<token>`, whose `Authorization` header is
`Bearer <stored>` when a non-empty token is stored and is absent when no token
or an empty one is stored. -/
theorem getSharedContract_request {σ : Type} (token : String) (out : Outcome) (env : Env σ) :
    ∃ r : Request,
      (sharingAPI.getSharedContract token out env).2.sent = env.sent ++ [r] ∧
      r.method = "GET" ∧ r.url = "/contracts/shared/" ++ token ∧
      getHeader "Authorization" r.headers =
        (match env.authToken with
         | some t => if t ≠ "" then some ("Bearer " ++ t) else none
         | none => none) := by
  refine ⟨withBearer env.authToken
    { method := "GET", url := "/contracts/shared/" ++ token, headers := defaultHeaders,
      data := .undefined }, ?_, ?_, ?_, ?_⟩
  · have h := api_data_run (σ := σ)
      { method := "GET", url := "/contracts/shared/" ++ token, headers := defaultHeaders,
        data := .undefined } out env
    have e : sharingAPI.getSharedContract (σ := σ) token out = Js.seq (api.request
      { method := "GET", url := "/contracts/shared/" ++ token, headers := defaultHeaders,
        data := .undefined } out) fun response => Js.ret response.data := rfl
    rw [e, h]
    cases out with
    | resolved r => rfl
    | rejected resp =>
      cases h401 : (JsError.axios resp).statusIs401 <;> simp [afterRejection, h401, afterDispatch]
  · cases h : env.authToken with
    | none => rfl
    | some t => by_cases ht : t = "" <;> simp [withBearer, ht]
  · cases h : env.authToken with
    | none => rfl
    | some t => by_cases ht : t = "" <;> simp [withBearer, ht]
  · cases h : env.authToken with
    | none => rfl
    | some t =>
      by_cases ht : t = ""
      · subst ht; rfl
      · simp [withBearer, ht, setHeader, getHeader, defaultHeaders]

/-- C2, amended: for every token and every outcome, each of
`sharingAPI.getSharedContract`, `sharingAPI.submitFeedback` and
`sharingAPI.getSharedComments` leaves the stored token and the location as they
were, unless the call is rejected with status 401: then the response
interceptor removes the stored token and sets the location to `/login`. -/
theorem shared_calls_session {σ : Type} (token : String) (feedbackData : JsVal) (out : Outcome)
    (env : Env σ) :
    (((sharingAPI.getSharedContract token out env).2.authToken,
      (sharingAPI.getSharedContract token out env).2.href) =
        if out.is401 then (none, "/login") else (env.authToken, env.href)) ∧
    (((sharingAPI.submitFeedback token feedbackData out env).2.authToken,
      (sharingAPI.submitFeedback token feedbackData out env).2.href) =
        if out.is401 then (none, "/login") else (env.authToken, env.href)) ∧
    (((sharingAPI.getSharedComments token out env).2.authToken,
      (sharingAPI.getSharedComments token out env).2.href) =
        if out.is401 then (none, "/login") else (env.authToken, env.href)) :=
  ⟨api_data_session _ out env, api_data_session _ out env, api_data_session _ out env⟩

/-- C2, counterexample: a shared-contract fetch answered 401 in a browser that
holds the token `abc` removes that token and sets the location to `/login`. -/
theorem shared_fetch_401_clears_session :
    signedInSharedPage.authToken = some "abc" ∧ signedInSharedPage.href = "/shared/tok" ∧
    (sharingAPI.getSharedContract "tok" (.rejected (some ⟨401, .null⟩))
      signedInSharedPage).2.authToken = none ∧
    (sharingAPI.getSharedContract "tok" (.rejected (some ⟨401, .null⟩))
      signedInSharedPage).2.href = "/login" := by
  decide

/-- C3: on a failure whose response has status 401 the response interceptor
removes the stored token, sets the location to `/login` and rejects with the
same error; on any other failure, a missing response included, it leaves both
as they were and rejects with the same error.  This holds for the interceptor
on any thrown value and for a rejected request to any endpoint. -/
theorem response_interceptor_rejection {σ α : Type} (error : JsError) (config : Request)
    (resp : Option HttpResponse) (env : Env σ) :
    (error.statusIs401 = true ↔ ∃ r, error.response = some r ∧ r.status = 401) ∧
    ((responseInterceptorError error : Js σ α) env).1 = .error error ∧
    ((((responseInterceptorError error : Js σ α) env).2.authToken,
      ((responseInterceptorError error : Js σ α) env).2.href) =
        if error.statusIs401 then (none, "/login") else (env.authToken, env.href)) ∧
    (api.request config (.rejected resp) env).1 = .error (.axios resp) ∧
    (((api.request config (.rejected resp) env).2.authToken,
      (api.request config (.rejected resp) env).2.href) =
        if (JsError.axios resp).statusIs401 then (none, "/login")
        else (env.authToken, env.href)) := by
  refine ⟨?_, ?_, ?_, ?_, ?_⟩
  · cases h : error.response with
    | none => simp [JsError.statusIs401, h]
    | some r => simp [JsError.statusIs401, h]
  · rw [responseInterceptorError_run]
  · rw [responseInterceptorError_run]; exact afterRejection_session error env
  · rw [api_request_run]
  · rw [api_request_run]; exact afterRejection_session _ _

/-- C4: `ProtectedRoute` renders the loading placeholder exactly when `loading`
is true, its children exactly when `loading` is false and the user is present
(truthy, as in `isAuthenticated: !!user`), and the redirect to `/login` exactly
when `loading` is false and the user is absent; the initial `null` is absent and
every user object is present. -/
theorem protectedRoute_gating (session : AuthState) :
    (ProtectedRoute session = .loadingPlaceholder ↔ session.loading = true) ∧
    (ProtectedRoute session = .children ↔
      session.loading = false ∧ session.user.truthy = true) ∧
    (ProtectedRoute session = .navigate "/login" ↔
      session.loading = false ∧ session.user.truthy = false) ∧
    JsVal.null.truthy = false ∧ (∀ fields, (JsVal.obj fields).truthy = true) := by
  obtain ⟨user, loading, error⟩ := session
  refine ⟨?_, ?_, ?_, rfl, fun _ => rfl⟩ <;>
    cases loading <;> cases h : user.truthy <;> simp [ProtectedRoute, h]


/-! ## The session invariant -/

/-- The call `authAPI.login`, case by case on the answer. -/
theorem authLogin_run {σ : Type} (credentials : JsVal) (out : Outcome) (env : Env σ) :
    authAPI.login credentials out env =
      match out with
      | .resolved r => (.ok r.data, afterDispatch
          { method := "POST", url := "/auth/login/email", headers := defaultHeaders,
            data := credentials } env)
      | .rejected resp => (.error (.axios resp), afterRejection (.axios resp) (afterDispatch
          { method := "POST", url := "/auth/login/email", headers := defaultHeaders,
            data := credentials } env)) :=
  api_data_run _ out env

/-- The call `authAPI.register`, case by case on the answer. -/
theorem authRegister_run {σ : Type} (userData : JsVal) (out : Outcome) (env : Env σ) :
    authAPI.register userData out env =
      match out with
      | .resolved r => (.ok r.data, afterDispatch
          { method := "POST", url := "/auth/register", headers := defaultHeaders,
            data := userData } env)
      | .rejected resp => (.error (.axios resp), afterRejection (.axios resp) (afterDispatch
          { method := "POST", url := "/auth/register", headers := defaultHeaders,
            data := userData } env)) :=
  api_data_run _ out env

/-- The call `authAPI.getCurrentUser`, case by case on the answer. -/
theorem getCurrentUser_run {σ : Type} (out : Outcome) (env : Env σ) :
    authAPI.getCurrentUser out env =
      match out with
      | .resolved r => (.ok r.data, afterDispatch
          { method := "GET", url := "/users/me", headers := defaultHeaders,
            data := .undefined } env)
      | .rejected resp => (.error (.axios resp), afterRejection (.axios resp) (afterDispatch
          { method := "GET", url := "/users/me", headers := defaultHeaders,
            data := .undefined } env)) :=
  api_data_run _ out env

/-- A rejection that is not a 401 leaves the page as it is. -/
theorem afterRejection_of_not401 {σ : Type} (resp : Option HttpResponse) (env : Env σ)
    (h : (Outcome.rejected resp).is401 = false) : afterRejection (.axios resp) env = env := by
  have : (JsError.axios resp).statusIs401 = false := by
    cases resp with
    | none => rfl
    | some r => simpa [JsError.statusIs401, JsError.response, Outcome.is401] using h
  simp [afterRejection, this]

/-- Without a 401 answer, `login` keeps the session invariant. -/
theorem login_preserves (credentials : JsVal) (loginOut userOut : Outcome) (env : Env AuthState)
    (h1 : loginOut.is401 = false) (h2 : userOut.is401 = false)
    (hinv : userWithoutToken env = false) :
    userWithoutToken (login credentials loginOut userOut env).2 = false := by
  cases loginOut with
  | rejected resp =>
    simp [login, Js.tryCatch, bind, Js.seq, Js.setView, authLogin_run,
      afterRejection_of_not401 _ _ h1, pure, Js.ret]
    simpa [userWithoutToken, afterDispatch] using hinv
  | resolved r =>
    cases hn : r.data.isNullish
    · cases hu : (r.data.prop "user").truthy
      · cases userOut with
        | resolved ur =>
          simp [login, Js.tryCatch, bind, Js.seq, Js.setView, authLogin_run, pure, Js.ret,
            JsVal.get, hn, hu, Js.ofExcept, localStorage.setItem, getCurrentUser_run,
            userWithoutToken, afterDispatch]
        | rejected uresp =>
          cases hc : credentials.isNullish <;>
          simp [login, Js.tryCatch, bind, Js.seq, Js.setView, authLogin_run, pure, Js.ret,
            JsVal.get, hn, hu, hc, Js.ofExcept, localStorage.setItem, getCurrentUser_run,
            userWithoutToken, afterDispatch, afterRejection_of_not401 _ _ h2, Js.throw]
      · simp [login, Js.tryCatch, bind, Js.seq, Js.setView, authLogin_run, pure, Js.ret,
            JsVal.get, hn, hu, Js.ofExcept, localStorage.setItem,
            userWithoutToken, afterDispatch]
    · simp [login, Js.tryCatch, bind, Js.seq, Js.setView, authLogin_run, pure, Js.ret,
            JsVal.get, hn, Js.ofExcept, Js.throw]
      simpa [userWithoutToken, afterDispatch] using hinv

/-- Without a 401 answer, `register` keeps the session invariant. -/
theorem register_preserves (userData : JsVal) (out : Outcome) (env : Env AuthState)
    (h1 : out.is401 = false) (hinv : userWithoutToken env = false) :
    userWithoutToken (register userData out env).2 = false := by
  cases out with
  | rejected resp =>
    simp [register, Js.tryCatch, bind, Js.seq, Js.setView, authRegister_run,
      afterRejection_of_not401 _ _ h1, pure, Js.ret]
    simpa [userWithoutToken, afterDispatch] using hinv
  | resolved r =>
    cases hn : r.data.isNullish
    · simp [register, Js.tryCatch, bind, Js.seq, Js.setView, authRegister_run, pure, Js.ret,
        JsVal.get, hn, Js.ofExcept, localStorage.setItem, userWithoutToken, afterDispatch]
    · simp [register, Js.tryCatch, bind, Js.seq, Js.setView, authRegister_run, pure, Js.ret,
        JsVal.get, hn, Js.ofExcept, Js.throw]
      simpa [userWithoutToken, afterDispatch] using hinv

/-- After `logout` no user is left in memory. -/
theorem logout_consistent (env : Env AuthState) : userWithoutToken (logout env).2 = false := by
  simp [logout, bind, Js.seq, Js.setView, localStorage.removeItem, userWithoutToken,
    JsVal.truthy]

/-- Without a 401 answer, any other request keeps the session invariant. -/
theorem call_preserves (config : Request) (out : Outcome) (env : Env AuthState)
    (h1 : out.is401 = false) (hinv : userWithoutToken env = false) :
    userWithoutToken (api.request config out env).2 = false := by
  rw [api_request_run]
  cases out with
  | rejected resp =>
    simp only [afterRejection_of_not401 _ _ h1]
    simpa [userWithoutToken, afterDispatch] using hinv
  | resolved r => simpa [userWithoutToken, afterDispatch] using hinv

/-- Without a 401 answer, every operation keeps the session invariant. -/
theorem op_preserves (op : SessionOp) (env : Env AuthState) (h : op.answered401 = false)
    (hinv : userWithoutToken env = false) : userWithoutToken (op.run env) = false := by
  cases op with
  | login credentials loginOut userOut =>
    simp only [SessionOp.answered401, Bool.or_eq_false_iff] at h
    exact login_preserves credentials loginOut userOut env h.1 h.2 hinv
  | register userData out => exact register_preserves userData out env h hinv
  | logout => exact logout_consistent env
  | call config out => exact call_preserves config out env h hinv

/-- The session invariant is kept along a run without 401 answers. -/
theorem runSession_preserves (ops : List SessionOp) (env : Env AuthState)
    (h : ∀ op ∈ ops, op.answered401 = false) (hinv : userWithoutToken env = false) :
    userWithoutToken (runSession ops env) = false := by
  induction ops generalizing env with
  | nil => simpa [runSession] using hinv
  | cons op rest ih =>
    have hop : op.answered401 = false := h op (List.mem_cons_self op rest)
    have hrest : ∀ o ∈ rest, o.answered401 = false := fun o ho =>
      h o (List.mem_cons_of_mem op ho)
    exact ih (op.run env) hrest (op_preserves op env hop hinv)

/-- After `checkAuth` at mount the invariant holds, whatever the answer: the
user is set only when the call resolves, and then the token is still stored. -/
theorem mountedSession_consistent (stored : Option String) (href : String) (checkOut : Outcome) :
    userWithoutToken (mountedSession stored href checkOut) = false := by
  cases stored with
  | none => rfl
  | some t =>
    by_cases ht : t = ""
    · subst ht; rfl
    · cases checkOut with
      | resolved r =>
        simp [mountedSession, checkAuth, bind, Js.seq, localStorage.getItem, ht, Js.tryCatch,
          getCurrentUser_run, Js.setView, userWithoutToken, afterDispatch]
      | rejected resp =>
        cases h : (JsError.axios resp).statusIs401 <;>
          simp [mountedSession, checkAuth, bind, Js.seq, localStorage.getItem, ht, Js.tryCatch,
            getCurrentUser_run, Js.setView, userWithoutToken, afterDispatch, afterRejection, h,
            localStorage.removeItem, AuthState.initial, JsVal.truthy]

/-- Away from the 401 answers the session invariant holds: in every session
state reached by `checkAuth` at mount (whatever its answer) followed by any
sequence of `login`, `register`, `logout` and other requests, each run to
completion and none of them answered 401, the in-memory user is present only if
a token is stored under `'authToken'`. -/
theorem session_invariant_without_401 (stored : Option String) (href : String)
    (checkOut : Outcome) (ops : List SessionOp) (h : ∀ op ∈ ops, op.answered401 = false) :
    userWithoutToken (runSession ops (mountedSession stored href checkOut)) = false :=
  runSession_preserves ops _ h (mountedSession_consistent stored href checkOut)

/-- C5, evaluation at the failing input: on a freshly mounted provider with
nothing stored, `login({email: 'a@b.c', password: 'pw'})` is answered 200 with
`{access_token: 't'}` and the follow-up `getCurrentUser` is answered 401.  The
follow-up request carried the token `t` just stored; the response interceptor
then removes it and sets the location to `/login`, and the `catch` of `login`
installs the fallback user (its comment reads "since we have a token").  The
session ends with the user `{email: 'a@b.c'}` in memory and nothing stored
under `'authToken'`. -/
theorem login_fallback_after_401_breaks_invariant :
    userWithoutToken (runSession
      [.login (.obj [("email", .str "a@b.c"), ("password", .str "pw")])
        (.resolved ⟨200, .obj [("access_token", .str "t")]⟩)
        (.rejected (some ⟨401, .null⟩))]
      (mountedSession none "/login" (.rejected none))) = true ∧
    (runSession
      [.login (.obj [("email", .str "a@b.c"), ("password", .str "pw")])
        (.resolved ⟨200, .obj [("access_token", .str "t")]⟩)
        (.rejected (some ⟨401, .null⟩))]
      (mountedSession none "/login" (.rejected none))).authToken = none ∧
    (runSession
      [.login (.obj [("email", .str "a@b.c"), ("password", .str "pw")])
        (.resolved ⟨200, .obj [("access_token", .str "t")]⟩)
        (.rejected (some ⟨401, .null⟩))]
      (mountedSession none "/login" (.rejected none))).view.user =
        .obj [("email", .str "a@b.c")] ∧
    ((runSession
      [.login (.obj [("email", .str "a@b.c"), ("password", .str "pw")])
        (.resolved ⟨200, .obj [("access_token", .str "t")]⟩)
        (.rejected (some ⟨401, .null⟩))]
      (mountedSession none "/login" (.rejected none))).sent.map fun q =>
        (q.url, q.headers.lookup "Authorization")) =
      [("/auth/login/email", none), ("/users/me", some "Bearer t")] :=
  ⟨rfl, rfl, rfl, rfl⟩

/-! ## Claims on the shared contract view -/

/-- The run of `loadSharedContract` when its `try` block throws. -/
theorem loadSharedContract_of_fails (token : String) (out : Outcome) (env : Env SharedView)
    (h : out.fetchFails = true) :
    (loadSharedContract token out env).1 = .ok () ∧
    (loadSharedContract token out env).2.view =
      { env.view with error := .str shareLinkError, loading := false } := by
  cases out with
  | rejected resp =>
    simp [loadSharedContract, Js.tryFinally, Js.tryCatch, getSharedContract_run, bind, Js.seq,
      Js.setView]
    cases h401 : (JsError.axios resp).statusIs401 <;> simp [afterRejection, h401, afterDispatch]
  | resolved r =>
    have hn : r.data.isNullish = true := h
    simp [loadSharedContract, Js.tryFinally, Js.tryCatch, getSharedContract_run, bind, Js.seq,
      Js.setView, JsVal.get, hn, Js.ofExcept, Js.throw, afterDispatch]

/-- The run of `loadSharedContract` on a payload whose properties can be read. -/
theorem loadSharedContract_of_payload (token : String) (r : HttpResponse)
    (env : Env SharedView) (hn : r.data.isNullish = false) :
    (loadSharedContract token (.resolved r) env).1 = .ok () ∧
    (loadSharedContract token (.resolved r) env).2.view =
      { env.view with
        contract := r.data.prop "contract"
        analysis := (r.data.prop "analysis").or .null
        comments := (r.data.prop "comments").or (.arr [])
        loading := false } := by
  simp [loadSharedContract, Js.tryFinally, Js.tryCatch, getSharedContract_run, bind, Js.seq,
    Js.setView, JsVal.get, hn, Js.ofExcept, Js.ret, afterDispatch]

/-- C6: whenever the `getSharedContract` call fails (it is rejected, with any
status or with no response, or its payload cannot be read), `loadSharedContract`
completes without throwing, sets `error` to the one non-empty message
`This share link is invalid or has expired.`, ends the loading phase and leaves
`contract` as it was; the view shows the `Link Expired` screen and is the same
for any two failures. -/
theorem loadSharedContract_failure (token : String) (out out' : Outcome)
    (env : Env SharedView) (h : out.fetchFails = true) (h' : out'.fetchFails = true) :
    (loadSharedContract token out env).1 = .ok () ∧
    (loadSharedContract token out env).2.view =
      { env.view with error := .str shareLinkError, loading := false } ∧
    shareLinkError ≠ "" ∧
    (loadSharedContract token out env).2.view.contract = env.view.contract ∧
    SharedContractView.render (loadSharedContract token out env).2.view =
      .ok (.linkExpired (.str shareLinkError)) ∧
    (loadSharedContract token out env).2.view = (loadSharedContract token out' env).2.view := by
  obtain ⟨h1, h2⟩ := loadSharedContract_of_fails token out env h
  obtain ⟨_, h2'⟩ := loadSharedContract_of_fails token out' env h'
  refine ⟨h1, h2, by decide, ?_, ?_, ?_⟩
  · rw [h2]
  · rw [h2]; rfl
  · rw [h2, h2']

/-- C6, witness: a 404 and an unreadable payload leave the same view. -/
theorem loadSharedContract_failure_witness :
    (loadSharedContract "tok" (.rejected (some ⟨404, .null⟩)) signedInSharedPage).2.view =
      (loadSharedContract "tok" (.resolved ⟨200, .null⟩) signedInSharedPage).2.view :=
  (loadSharedContract_failure "tok" (.rejected (some ⟨404, .null⟩)) (.resolved ⟨200, .null⟩)
    signedInSharedPage rfl rfl).2.2.2.2.2

/-- C7, counterexample: the backend answers 200 with the payload `{}`; the view
ends with `loading` false, no error and an undefined contract, and rendering the
page throws on `contract.title`. -/
theorem loadSharedContract_without_contract :
    (loadSharedContract "tok" (.resolved ⟨200, .obj []⟩) signedInSharedPage).2.view.loading
      = false ∧
    (loadSharedContract "tok" (.resolved ⟨200, .obj []⟩) signedInSharedPage).2.view.error.truthy
      = false ∧
    (loadSharedContract "tok" (.resolved ⟨200, .obj []⟩)
      signedInSharedPage).2.view.contract.isNullish = true ∧
    SharedContractView.render
      (loadSharedContract "tok" (.resolved ⟨200, .obj []⟩) signedInSharedPage).2.view =
        .error .typeError := by
  refine ⟨by decide, by decide, by decide, rfl⟩

/-- C7, amended: on a freshly mounted view `loadSharedContract` completes with
`loading` false.  When the call fails or its payload cannot be read, the view is
Expired: the non-empty error message, contract still `null`, the `Link Expired`
screen returned.  When the call resolves with a readable payload no error is
set and contract, analysis and comments are those of the payload (`null` and
`[]` standing in for a falsy analysis and comments); when that payload carries a
contract the view is Ready: no error, the contract present, and the reads of
`contract.title` and `contract.contract_type` do not throw.  The two states
exclude each other. -/
theorem loadSharedContract_expired_or_ready (token : String) (out : Outcome)
    (env : Env SharedView) (h0 : env.view = SharedView.initial) :
    (loadSharedContract token out env).1 = .ok () ∧
    (loadSharedContract token out env).2.view.loading = false ∧
    (out.fetchFails = true →
      (loadSharedContract token out env).2.view =
        { SharedView.initial with error := .str shareLinkError, loading := false } ∧
      (loadSharedContract token out env).2.view.error.truthy = true ∧
      (loadSharedContract token out env).2.view.contract = .null ∧
      (loadSharedContract token out env).2.view.isExpired = true ∧
      (loadSharedContract token out env).2.view.isReady = false ∧
      SharedContractView.render (loadSharedContract token out env).2.view =
        .ok (.linkExpired (.str shareLinkError))) ∧
    (out.fetchFails = false →
      (loadSharedContract token out env).2.view =
        { SharedView.initial with
          contract := out.payload.prop "contract"
          analysis := (out.payload.prop "analysis").or .null
          comments := (out.payload.prop "comments").or (.arr [])
          loading := false } ∧
      (loadSharedContract token out env).2.view.error = .null ∧
      (loadSharedContract token out env).2.view.isExpired = false ∧
      (loadSharedContract token out env).2.view.isReady = true) ∧
    (out.hasContract = true →
      out.fetchFails = false ∧
      (loadSharedContract token out env).2.view.contract = out.payload.prop "contract" ∧
      (loadSharedContract token out env).2.view.contract.isNullish = false ∧
      (loadSharedContract token out env).2.view.contract.get "title" =
        .ok ((out.payload.prop "contract").prop "title") ∧
      (loadSharedContract token out env).2.view.contract.get "contract_type" =
        .ok ((out.payload.prop "contract").prop "contract_type")) := by
  have hpay : out.fetchFails = false →
      (loadSharedContract token out env).1 = .ok () ∧
      (loadSharedContract token out env).2.view =
        { SharedView.initial with
          contract := out.payload.prop "contract"
          analysis := (out.payload.prop "analysis").or .null
          comments := (out.payload.prop "comments").or (.arr [])
          loading := false } := by
    intro hf
    cases out with
    | rejected resp => cases hf
    | resolved r =>
      have hn : r.data.isNullish = false := hf
      obtain ⟨h1, h2⟩ := loadSharedContract_of_payload token r env hn
      exact ⟨h1, by rw [h2, h0]; rfl⟩
  have hfail : out.fetchFails = true →
      (loadSharedContract token out env).1 = .ok () ∧
      (loadSharedContract token out env).2.view =
        { SharedView.initial with error := .str shareLinkError, loading := false } := by
    intro hf
    obtain ⟨h1, h2⟩ := loadSharedContract_of_fails token out env hf
    exact ⟨h1, by rw [h2, h0]⟩
  refine ⟨?_, ?_, ?_, ?_, ?_⟩
  · cases hf : out.fetchFails
    · exact (hpay hf).1
    · exact (hfail hf).1
  · cases hf : out.fetchFails
    · rw [(hpay hf).2]
    · rw [(hfail hf).2]
  · intro hf
    rw [(hfail hf).2]
    exact ⟨rfl, by decide, rfl, by decide, by decide, rfl⟩
  · intro hf
    rw [(hpay hf).2]
    exact ⟨rfl, rfl, rfl, rfl⟩
  · intro hc
    cases out with
    | rejected resp => simp [Outcome.hasContract] at hc
    | resolved r =>
      simp only [Outcome.hasContract, Bool.and_eq_true, Bool.not_eq_true'] at hc
      obtain ⟨hn, hcn⟩ := hc
      have hf : (Outcome.resolved r).fetchFails = false := hn
      rw [(hpay hf).2]
      refine ⟨hf, rfl, hcn, ?_, ?_⟩
      · simp [JsVal.get, Outcome.payload, hcn]
      · simp [JsVal.get, Outcome.payload, hcn]

/-- C7, witness: a payload with a contract titled `NDA`, on a fresh mount. -/
theorem loadSharedContract_expired_or_ready_witness :
    (loadSharedContract "tok"
      (.resolved ⟨200, .obj [("contract", .obj [("title", .str "NDA")])]⟩)
      signedInSharedPage).2.view.contract.get "title" = .ok (.str "NDA") :=
  ((loadSharedContract_expired_or_ready "tok"
    (.resolved ⟨200, .obj [("contract", .obj [("title", .str "NDA")])]⟩)
    signedInSharedPage rfl).2.2.2.2 (by decide)).2.2.2.1

/-- The view `handleFeedbackSubmit` leaves when the `submitFeedback` call is rejected. -/
theorem handleFeedbackSubmit_rejected_view (token : String) (feedbackForm : FeedbackForm)
    (resp : Option HttpResponse) (commentsOut : Outcome) (toastId : Nat)
    (env : Env SharedView) :
    (handleFeedbackSubmit token feedbackForm (.rejected resp) commentsOut toastId env).2.view
      = { env.view with submitting := false } := by
  cases h401 : (JsError.axios resp).statusIs401 <;>
    simp [handleFeedbackSubmit, Js.tryFinally, Js.tryCatch, submitFeedback_run, bind, Js.seq,
      Js.setView, toast.error, showToast, afterRejection, h401, afterDispatch]

/-- C8, evaluation at the failing input: with the feedback form open and
untouched (empty name, empty text), a click on `Submit Feedback` dispatches the
`POST` of the feedback with the empty name and text as its body. -/
theorem empty_draft_is_dispatched :
    emptyDraftSharedPage.view.feedbackForm.commenter_name = "" ∧
    emptyDraftSharedPage.view.feedbackForm.comment_text = "" ∧
    ((clickSubmitFeedback "tok" (.resolved ⟨200, .null⟩) (.resolved ⟨200, .arr []⟩) 7
      emptyDraftSharedPage).2.sent.map fun r => (r.method, r.url)) =
        [("POST", "/contracts/shared/tok/feedback"), ("GET", "/contracts/shared/tok/comments")] ∧
    ((clickSubmitFeedback "tok" (.resolved ⟨200, .null⟩) (.resolved ⟨200, .arr []⟩) 7
      emptyDraftSharedPage).2.sent.map fun r =>
        ((r.data.prop "commenter_name").toJsString, (r.data.prop "comment_text").toJsString)) =
        [("", ""), ("undefined", "undefined")] := by
  decide

/-- C9: when the `submitFeedback` call fails, `handleFeedbackSubmit` completes
without throwing, leaves the whole view state (draft and comment list included)
as it was with `submitting` false, shows exactly the error toast
`Failed to submit feedback. Please try again.`, and has sent the one request. -/
theorem handleFeedbackSubmit_failure (token : String) (feedbackForm : FeedbackForm)
    (resp : Option HttpResponse) (commentsOut : Outcome) (toastId : Nat)
    (env : Env SharedView) :
    (handleFeedbackSubmit token feedbackForm (.rejected resp) commentsOut toastId env).1
      = .ok () ∧
    (handleFeedbackSubmit token feedbackForm (.rejected resp) commentsOut toastId env).2.view
      = { env.view with submitting := false } ∧
    (handleFeedbackSubmit token feedbackForm (.rejected resp) commentsOut toastId env).2.toasts
      = env.toasts ++ [{ id := toastId, message := "Failed to submit feedback. Please try again.",
                         type := "error", duration := 5000 }] ∧
    (handleFeedbackSubmit token feedbackForm (.rejected resp) commentsOut toastId env).2.sent
      = env.sent ++ [withBearer env.authToken
          { method := "POST", url := "/contracts/shared/" ++ token ++ "/feedback",
            headers := defaultHeaders, data := feedbackForm.toJs }] := by
  cases h401 : (JsError.axios resp).statusIs401 <;>
    simp [handleFeedbackSubmit, Js.tryFinally, Js.tryCatch, submitFeedback_run, bind, Js.seq,
      Js.setView, toast.error, showToast, afterRejection, h401, afterDispatch]

/-- C10, amended: `handleFeedbackSubmit` resets the draft to its initial value
as soon as the `submitFeedback` call has succeeded, whatever the outcome of the
comments refresh that follows; when `submitFeedback` fails the draft is left as
it was. -/
theorem handleFeedbackSubmit_draft (token : String) (feedbackForm : FeedbackForm)
    (submitOut commentsOut : Outcome) (toastId : Nat) (env : Env SharedView) :
    (handleFeedbackSubmit token feedbackForm submitOut commentsOut toastId env).2.view.feedbackForm
      = match submitOut with
        | .resolved _ => FeedbackForm.initial
        | .rejected _ => env.view.feedbackForm := by
  cases submitOut with
  | rejected resp =>
    rw [handleFeedbackSubmit_rejected_view token feedbackForm resp commentsOut toastId env]
  | resolved r =>
    cases commentsOut with
    | resolved cr =>
      simp [handleFeedbackSubmit, Js.tryFinally, Js.tryCatch, submitFeedback_run, bind, Js.seq,
        Js.setView, toast.success, showToast, afterDispatch, getSharedComments_run]
    | rejected cresp =>
      cases h401 : (JsError.axios cresp).statusIs401 <;>
      simp [handleFeedbackSubmit, Js.tryFinally, Js.tryCatch, submitFeedback_run, bind, Js.seq,
        Js.setView, toast.error, showToast, afterDispatch, getSharedComments_run,
        afterRejection, h401]

/-- C10, counterexample: the feedback is accepted and the comments refresh
fails; the draft typed by the visitor is gone. -/
theorem draft_lost_when_refresh_fails :
    draftedSharedPage.view.feedbackForm =
      { commenter_name := "Alice", commenter_email := "", comment_text := "Looks fine",
        rating := 4 } ∧
    (clickSubmitFeedback "tok" (.resolved ⟨200, .null⟩) (.rejected none) 7
      draftedSharedPage).2.view.feedbackForm =
      { commenter_name := "", commenter_email := "", comment_text := "", rating := 5 } := by
  decide

/-! ## Claims on the feedback refresh and on `login` -/

/-- C11: after a successful submission followed by a successful refresh, the
displayed comment list is exactly the payload `getSharedComments` returned,
whatever the previous list and the submitted draft were; the handler completes
normally and the refresh is the `GET` of the comments of the token. -/
theorem handleFeedbackSubmit_comments_refreshed (token : String) (feedbackForm : FeedbackForm)
    (submitted refreshed : HttpResponse) (toastId : Nat) (env : Env SharedView) :
    (handleFeedbackSubmit token feedbackForm (.resolved submitted) (.resolved refreshed)
      toastId env).1 = .ok () ∧
    (handleFeedbackSubmit token feedbackForm (.resolved submitted) (.resolved refreshed)
      toastId env).2.view.comments = refreshed.data ∧
    ((handleFeedbackSubmit token feedbackForm (.resolved submitted) (.resolved refreshed)
      toastId env).2.sent.drop env.sent.length).map (fun r => (r.method, r.url)) =
      [("POST", "/contracts/shared/" ++ token ++ "/feedback"),
       ("GET", "/contracts/shared/" ++ token ++ "/comments")] := by
  have hb : ∀ (c : Request), (withBearer env.authToken c).method = c.method ∧
      (withBearer env.authToken c).url = c.url := by
    intro c
    cases h : env.authToken with
    | none => exact ⟨rfl, rfl⟩
    | some t => by_cases ht : t = "" <;> simp [withBearer, ht]
  simp [handleFeedbackSubmit, Js.tryFinally, Js.tryCatch, submitFeedback_run, bind, Js.seq,
    Js.setView, toast.success, showToast, afterDispatch, getSharedComments_run, hb]

/-- The run of `login` when the login call is rejected. -/
theorem login_rejected_run (credentials : JsVal) (resp : Option HttpResponse)
    (userOut : Outcome) (env : Env AuthState) :
    login credentials (.rejected resp) userOut env =
      (.ok (.failure ((JsError.axios resp).detail.or (.str "Login failed"))),
        { afterRejection (.axios resp) (afterDispatch
            { method := "POST", url := "/auth/login/email", headers := defaultHeaders,
              data := credentials } env) with
          view := { env.view with
            error := (JsError.axios resp).detail.or (.str "Login failed") } }) := by
  cases h401 : (JsError.axios resp).statusIs401 <;>
    simp [login, Js.tryCatch, bind, Js.seq, Js.setView, authLogin_run, pure, Js.ret,
      afterRejection, h401, afterDispatch]

/-- The run of `register` when the registration call is rejected. -/
theorem register_rejected_run (userData : JsVal) (resp : Option HttpResponse)
    (env : Env AuthState) :
    register userData (.rejected resp) env =
      (.ok (.failure ((JsError.axios resp).detail.or (.str "Registration failed"))),
        { afterRejection (.axios resp) (afterDispatch
            { method := "POST", url := "/auth/register", headers := defaultHeaders,
              data := userData } env) with
          view := { env.view with
            error := (JsError.axios resp).detail.or (.str "Registration failed") } }) := by
  cases h401 : (JsError.axios resp).statusIs401 <;>
    simp [register, Js.tryCatch, bind, Js.seq, Js.setView, authRegister_run, pure, Js.ret,
      afterRejection, h401, afterDispatch]

/-- The result of `login` is always a value. -/
theorem login_completes (credentials : JsVal) (loginOut userOut : Outcome)
    (env : Env AuthState) :
    ∃ res : AuthResult, (login credentials loginOut userOut env).1 = .ok res := by
  cases loginOut with
  | rejected resp => exact ⟨_, by rw [login_rejected_run]⟩
  | resolved r =>
    cases hn : r.data.isNullish
    · cases hu : (r.data.prop "user").truthy
      · cases userOut with
        | resolved ur =>
          exact ⟨.success, by
            simp [login, Js.tryCatch, bind, Js.seq, Js.setView, authLogin_run, pure, Js.ret,
              JsVal.get, hn, hu, Js.ofExcept, localStorage.setItem, getCurrentUser_run]⟩
        | rejected uresp =>
          cases hc : credentials.isNullish
          · exact ⟨.success, by
              simp [login, Js.tryCatch, bind, Js.seq, Js.setView, authLogin_run, pure, Js.ret,
                JsVal.get, hn, hu, hc, Js.ofExcept, localStorage.setItem, getCurrentUser_run]⟩
          · exact ⟨.failure (JsError.typeError.detail.or (.str "Login failed")), by
              simp [login, Js.tryCatch, bind, Js.seq, Js.setView, authLogin_run, pure, Js.ret,
                JsVal.get, hn, hu, hc, Js.ofExcept, localStorage.setItem, getCurrentUser_run,
                Js.throw]⟩
      · exact ⟨.success, by
          simp [login, Js.tryCatch, bind, Js.seq, Js.setView, authLogin_run, pure, Js.ret,
            JsVal.get, hn, hu, Js.ofExcept, localStorage.setItem]⟩
    · exact ⟨.failure (JsError.typeError.detail.or (.str "Login failed")), by
        simp [login, Js.tryCatch, bind, Js.seq, Js.setView, authLogin_run, pure, Js.ret,
          JsVal.get, hn, Js.ofExcept, Js.throw]⟩

/-- Away from the 401 answers `login` does what its comments say: when the login
call resolves with a readable payload, the credentials are an object and a
follow-up `getCurrentUser` is not answered 401, `login` returns
`{success: true}`, the value stored under `'authToken'` is the string conversion
of the `access_token` of the payload (the `access_token` itself when it is a
string), and the user is the `user` of the payload when that is truthy,
otherwise the payload of the follow-up call when it resolves, otherwise the
fallback `{email: credentials.email}`. -/
theorem login_success (credentials : JsVal) (r : HttpResponse) (userOut : Outcome)
    (env : Env AuthState) (hn : r.data.isNullish = false)
    (hc : credentials.isNullish = false) (h401 : userOut.is401 = false) :
    (login credentials (.resolved r) userOut env).1 = .ok .success ∧
    (login credentials (.resolved r) userOut env).2.authToken =
      some (r.data.prop "access_token").toJsString ∧
    (∀ t : String, (JsVal.str t).toJsString = t) ∧
    (login credentials (.resolved r) userOut env).2.view.user =
      (if (r.data.prop "user").truthy then r.data.prop "user"
       else match userOut with
         | .resolved ur => ur.data
         | .rejected _ => .obj [("email", credentials.prop "email")]) := by
  cases hu : (r.data.prop "user").truthy
  · cases userOut with
    | resolved ur =>
      simp [login, Js.tryCatch, bind, Js.seq, Js.setView, authLogin_run, pure, Js.ret,
        JsVal.get, hn, hu, Js.ofExcept, localStorage.setItem, getCurrentUser_run,
        afterDispatch, JsVal.toJsString]
    | rejected uresp =>
      simp [login, Js.tryCatch, bind, Js.seq, Js.setView, authLogin_run, pure, Js.ret,
        JsVal.get, hn, hu, hc, Js.ofExcept, localStorage.setItem, getCurrentUser_run,
        afterDispatch, afterRejection_of_not401 _ _ h401, JsVal.toJsString]
  · simp [login, Js.tryCatch, bind, Js.seq, Js.setView, authLogin_run, pure, Js.ret,
      JsVal.get, hn, hu, Js.ofExcept, localStorage.setItem, afterDispatch, JsVal.toJsString]

/-- C12, evaluation at the failing input: on a freshly mounted provider with
nothing stored, `login({email: 'a@b.c', password: 'pw'})` is answered 200 with
`{access_token: 't'}`, so the login call succeeds, and the follow-up
`getCurrentUser` is answered 401.  `login` returns `{success: true}` and sets
the fallback user `{email: 'a@b.c'}`, yet nothing is stored under
`'authToken'`: the token `t` was stored and sent with the follow-up request,
and the response interceptor removed it again and set the location to `/login`
before the `catch` commented "since we have a token" ran. -/
theorem login_reports_success_without_token :
    (login (.obj [("email", .str "a@b.c"), ("password", .str "pw")])
      (.resolved ⟨200, .obj [("access_token", .str "t")]⟩) (.rejected (some ⟨401, .null⟩))
      (mountedSession none "/login" (.rejected none))).1 = .ok .success ∧
    (login (.obj [("email", .str "a@b.c"), ("password", .str "pw")])
      (.resolved ⟨200, .obj [("access_token", .str "t")]⟩) (.rejected (some ⟨401, .null⟩))
      (mountedSession none "/login" (.rejected none))).2.authToken = none ∧
    (login (.obj [("email", .str "a@b.c"), ("password", .str "pw")])
      (.resolved ⟨200, .obj [("access_token", .str "t")]⟩) (.rejected (some ⟨401, .null⟩))
      (mountedSession none "/login" (.rejected none))).2.view.user =
        .obj [("email", .str "a@b.c")] ∧
    (login (.obj [("email", .str "a@b.c"), ("password", .str "pw")])
      (.resolved ⟨200, .obj [("access_token", .str "t")]⟩) (.rejected (some ⟨401, .null⟩))
      (mountedSession none "/login" (.rejected none))).2.href = "/login" ∧
    ((login (.obj [("email", .str "a@b.c"), ("password", .str "pw")])
      (.resolved ⟨200, .obj [("access_token", .str "t")]⟩) (.rejected (some ⟨401, .null⟩))
      (mountedSession none "/login" (.rejected none))).2.sent.map fun q =>
        (q.method, q.url, q.headers.lookup "Authorization")) =
      [("POST", "/auth/login/email", none), ("GET", "/users/me", some "Bearer t")] :=
  ⟨rfl, rfl, rfl, rfl, rfl⟩

/-- C13: for every credentials value and every behaviour of the backend, `login`
does not throw: it returns `{success: true}` or `{success: false, error}`. -/
theorem login_never_throws (credentials : JsVal) (loginOut userOut : Outcome)
    (env : Env AuthState) :
    (login credentials loginOut userOut env).1 = .ok .success ∨
    ∃ message : JsVal, (login credentials loginOut userOut env).1 = .ok (.failure message) := by
  obtain ⟨res, h⟩ := login_completes credentials loginOut userOut env
  cases res with
  | success => exact Or.inl h
  | failure message => exact Or.inr ⟨message, h⟩

/-- The message of the handlers is the message the specification asks for. -/
theorem detail_or_eq_spec (resp : Option HttpResponse) (fallback : String) :
    (JsError.axios resp).detail.or (.str fallback) = specFailureMessage resp fallback := by
  cases resp with
  | none => rfl
  | some r =>
    obtain ⟨status, data⟩ := r
    cases data with
    | obj fields =>
      cases h : (JsVal.lookupField "detail" fields).truthy <;>
        simp [JsError.detail, JsError.response, JsVal.isNullish, JsVal.prop, JsVal.or,
          specFailureMessage, h]
    | undefined => rfl
    | null => rfl
    | bool b => rfl
    | num n => rfl
    | str t => rfl
    | arr items => rfl

/-- C14: when the backend call of `login` fails, `login` returns
`{success: false, error: m}` and sets the context error to `m`, where `m` is
the `detail` of the error payload when the payload provides a non-empty one and
`'Login failed'` otherwise; `register` does the same with
`'Registration failed'`; in both cases `m` is truthy and the user is left as it
was.  In particular an error body `{detail: d}` with a non-empty `d` gives
`m = d`, and a missing response, a body without `detail` and an empty `detail`
give the fallback. -/
theorem login_register_failure (input : JsVal) (resp : Option HttpResponse)
    (userOut : Outcome) (env : Env AuthState) (status : Int) (d : JsVal)
    (rest : List (String × JsVal)) :
    (login input (.rejected resp) userOut env).1 =
      .ok (.failure (specFailureMessage resp "Login failed")) ∧
    (login input (.rejected resp) userOut env).2.view.error =
      specFailureMessage resp "Login failed" ∧
    (login input (.rejected resp) userOut env).2.view.user = env.view.user ∧
    (register input (.rejected resp) env).1 =
      .ok (.failure (specFailureMessage resp "Registration failed")) ∧
    (register input (.rejected resp) env).2.view.error =
      specFailureMessage resp "Registration failed" ∧
    (register input (.rejected resp) env).2.view.user = env.view.user ∧
    (specFailureMessage resp "Login failed").truthy = true ∧
    (specFailureMessage resp "Registration failed").truthy = true ∧
    (d.truthy = true →
      (login input (.rejected (some ⟨status, .obj (("detail", d) :: rest)⟩)) userOut env).1 =
        .ok (.failure d) ∧
      (login input (.rejected (some ⟨status, .obj (("detail", d) :: rest)⟩))
        userOut env).2.view.error = d ∧
      (register input (.rejected (some ⟨status, .obj (("detail", d) :: rest)⟩)) env).1 =
        .ok (.failure d) ∧
      (register input (.rejected (some ⟨status, .obj (("detail", d) :: rest)⟩))
        env).2.view.error = d) ∧
    (d.truthy = false →
      (login input (.rejected (some ⟨status, .obj [("detail", d)]⟩)) userOut env).1 =
        .ok (.failure (.str "Login failed")) ∧
      (register input (.rejected (some ⟨status, .obj [("detail", d)]⟩)) env).1 =
        .ok (.failure (.str "Registration failed"))) ∧
    (login input (.rejected none) userOut env).1 = .ok (.failure (.str "Login failed")) ∧
    (register input (.rejected none) env).1 = .ok (.failure (.str "Registration failed")) ∧
    (login input (.rejected (some ⟨status, .obj []⟩)) userOut env).1 =
      .ok (.failure (.str "Login failed")) ∧
    (register input (.rejected (some ⟨status, .null⟩)) env).1 =
      .ok (.failure (.str "Registration failed")) := by
  have hL : ∀ resp', (login input (.rejected resp') userOut env).1 =
      .ok (.failure (specFailureMessage resp' "Login failed")) := by
    intro resp'
    rw [login_rejected_run, detail_or_eq_spec]
  have hR : ∀ resp', (register input (.rejected resp') env).1 =
      .ok (.failure (specFailureMessage resp' "Registration failed")) := by
    intro resp'
    rw [register_rejected_run, detail_or_eq_spec]
  have hLe : ∀ resp', (login input (.rejected resp') userOut env).2.view.error =
      specFailureMessage resp' "Login failed" := by
    intro resp'
    rw [login_rejected_run, detail_or_eq_spec]
  have hRe : ∀ resp', (register input (.rejected resp') env).2.view.error =
      specFailureMessage resp' "Registration failed" := by
    intro resp'
    rw [register_rejected_run, detail_or_eq_spec]
  have htruthy : ∀ fallback : String, fallback ≠ "" →
      (specFailureMessage resp fallback).truthy = true := by
    intro fallback hne
    cases resp with
    | none => simpa [specFailureMessage, JsVal.truthy] using hne
    | some r =>
      obtain ⟨st, data⟩ := r
      cases data with
      | obj fields =>
        cases h : (JsVal.lookupField "detail" fields).truthy
        · simp only [specFailureMessage, h, Bool.false_eq_true, if_false]
          simpa [JsVal.truthy] using hne
        · simp only [specFailureMessage, h, if_true]
      | undefined => simpa [specFailureMessage, JsVal.truthy] using hne
      | null => simpa [specFailureMessage, JsVal.truthy] using hne
      | bool b => simpa [specFailureMessage, JsVal.truthy] using hne
      | num n => simpa [specFailureMessage, JsVal.truthy] using hne
      | str t => simpa [specFailureMessage, JsVal.truthy] using hne
      | arr items => simpa [specFailureMessage, JsVal.truthy] using hne
  refine ⟨hL resp, hLe resp, ?_, hR resp, hRe resp, ?_, htruthy _ (by decide),
    htruthy _ (by decide), ?_, ?_, hL none, hR none, hL _, hR _⟩
  · rw [login_rejected_run]
  · rw [register_rejected_run]
  · intro hd
    rw [hL, hLe, hR, hRe]
    simp [specFailureMessage, JsVal.lookupField, hd]
  · intro hd
    rw [hL, hR]
    simp [specFailureMessage, JsVal.lookupField, hd]

/-- C14, witness: a login rejected with 400 and the body
`{detail: 'Incorrect email or password'}` returns that detail as the error. -/
theorem login_register_failure_witness :
    (login (.obj [("email", .str "a@b.c"), ("password", .str "pw")])
      (.rejected (some ⟨400, .obj [("detail", .str "Incorrect email or password")]⟩))
      (.rejected none) signedInMount).1 =
        .ok (.failure (.str "Incorrect email or password")) :=
  ((login_register_failure (.obj [("email", .str "a@b.c"), ("password", .str "pw")]) none
    (.rejected none) signedInMount 400 (.str "Incorrect email or password")
    []).2.2.2.2.2.2.2.2.1 (by decide)).1

/-! ## Claims on `checkAuth`, `logout` and the stored token -/

/-- The run of `checkAuth`, by the stored token and the answer. -/
theorem checkAuth_run (userOut : Outcome) (env : Env AuthState) :
    checkAuth userOut env =
      if storedTokenTruthy env.authToken then
        match userOut with
        | .resolved r =>
          (.ok (), { afterDispatch
              { method := "GET", url := "/users/me", headers := defaultHeaders,
                data := .undefined } env with
            view := { env.view with user := r.data, loading := false } })
        | .rejected resp =>
          (.ok (), { afterRejection (.axios resp) (afterDispatch
              { method := "GET", url := "/users/me", headers := defaultHeaders,
                data := .undefined } env) with
            authToken := none
            view := { env.view with loading := false } })
      else (.ok (), { env with view := { env.view with loading := false } }) := by
  obtain ⟨tok, href, sent, toasts, view⟩ := env
  cases tok with
  | none => rfl
  | some t =>
    by_cases ht : t = ""
    · subst ht; rfl
    · cases userOut with
      | resolved r =>
        simp [checkAuth, bind, Js.seq, localStorage.getItem, ht, Js.tryCatch,
          getCurrentUser_run, Js.setView, afterDispatch, storedTokenTruthy]
      | rejected resp =>
        cases h401 : (JsError.axios resp).statusIs401 <;>
        simp [checkAuth, bind, Js.seq, localStorage.getItem, ht, Js.tryCatch,
          getCurrentUser_run, Js.setView, afterDispatch, storedTokenTruthy,
          localStorage.removeItem, afterRejection, h401]

/-- C15: `checkAuth` always completes with `loading` false.  With no stored
token (or an empty one) it sends nothing and leaves user and storage as they
were; with a stored token it sends the one user-resolution request, and on a
success the user becomes the resolved user and the token is kept, while on a
failure with any error the stored token is removed and the user is left as it
was (absent at mount). -/
theorem checkAuth_outcomes (userOut : Outcome) (env : Env AuthState) :
    (checkAuth userOut env).1 = .ok () ∧
    (checkAuth userOut env).2.view.loading = false ∧
    ((checkAuth userOut env).2.view.user, (checkAuth userOut env).2.authToken,
      (checkAuth userOut env).2.sent.length) =
      (if storedTokenTruthy env.authToken then
        match userOut with
        | .resolved r => (r.data, env.authToken, env.sent.length + 1)
        | .rejected _ => (env.view.user, none, env.sent.length + 1)
      else (env.view.user, env.authToken, env.sent.length)) ∧
    storedTokenTruthy none = false ∧ AuthState.initial.user = .null := by
  rw [checkAuth_run]
  refine ⟨?_, ?_, ?_, rfl, rfl⟩
  · cases storedTokenTruthy env.authToken <;> cases userOut <;> rfl
  · cases storedTokenTruthy env.authToken <;> cases userOut <;> rfl
  · cases storedTokenTruthy env.authToken
    · rfl
    · cases userOut with
      | resolved r => simp [afterDispatch]
      | rejected resp =>
        cases h401 : (JsError.axios resp).statusIs401 <;> simp [afterDispatch, afterRejection, h401]

/-- The run of `logout`. -/
theorem logout_run (env : Env AuthState) :
    logout env = (.ok (), { env with
      authToken := none, view := { env.view with user := .null, error := .null } }) := rfl

/-- C16: from every session state `logout` completes, leaves no stored token and
no user, and sends nothing; two logouts leave the page one logout leaves; and
on a session without token and user it changes neither token, user nor
`loading` (it resets the context error to `null`). -/
theorem logout_idempotent (env : Env AuthState) (loading : Bool) (error : JsVal) :
    (logout env).1 = .ok () ∧
    (logout env).2.authToken = none ∧ (logout env).2.view.user = .null ∧
    (logout env).2.sent = env.sent ∧ (logout env).2.href = env.href ∧
    (logout env).2.view.loading = env.view.loading ∧
    (logout (logout env).2).2 = (logout env).2 ∧
    (logout { env with authToken := none,
                       view := { user := .null, loading := loading, error := error } }).2 =
      { env with authToken := none,
                 view := { user := .null, loading := loading, error := .null } } := by
  simp [logout_run]

/-- The call `authAPI.updatePassword`, case by case on the answer. -/
theorem updatePassword_run {σ : Type} (currentPassword newPassword : String) (out : Outcome)
    (env : Env σ) :
    authAPI.updatePassword currentPassword newPassword out env =
      match out with
      | .resolved r => (.ok r.data, afterDispatch
          { method := "POST", url := "/auth/password-update", headers := defaultHeaders,
            data := .obj [("current_password", .str currentPassword),
              ("new_password", .str newPassword)] } env)
      | .rejected resp => (.error (.axios resp), afterRejection (.axios resp) (afterDispatch
          { method := "POST", url := "/auth/password-update", headers := defaultHeaders,
            data := .obj [("current_password", .str currentPassword),
              ("new_password", .str newPassword)] } env)) :=
  api_data_run _ out env

/-- The stored token after `loadSharedContract`. -/
theorem loadSharedContract_token (token : String) (out : Outcome) (env : Env SharedView) :
    (loadSharedContract token out env).2.authToken =
      if out.is401 then none else env.authToken := by
  cases out with
  | rejected resp =>
    cases resp with
    | none =>
      simp [loadSharedContract, Js.tryFinally, Js.tryCatch, getSharedContract_run, bind, Js.seq,
        Js.setView, afterRejection, JsError.statusIs401, JsError.response, afterDispatch,
        Outcome.is401]
    | some r =>
      by_cases h : r.status = 401 <;>
      simp [loadSharedContract, Js.tryFinally, Js.tryCatch, getSharedContract_run, bind, Js.seq,
        Js.setView, afterRejection, JsError.statusIs401, JsError.response, afterDispatch,
        Outcome.is401, h]
  | resolved r =>
    cases hn : r.data.isNullish <;>
    simp [loadSharedContract, Js.tryFinally, Js.tryCatch, getSharedContract_run, bind, Js.seq,
      Js.setView, JsVal.get, hn, Js.ofExcept, Js.ret, Js.throw, afterDispatch, Outcome.is401]

/-- C17, counterexample: at mount, with the token `abc` stored, a user
resolution that fails without any response (no 401, no interceptor action) makes
`checkAuth` remove the stored token. -/
theorem checkAuth_clears_token :
    signedInMount.authToken = some "abc" ∧
    (Outcome.rejected none).is401 = false ∧
    (checkAuth (.rejected none) signedInMount).2.authToken = none := by
  decide

/-! ## Claims on the change-password page -/

/-- The run of `handleSubmit` when one of its three checks fails. -/
theorem handleSubmit_rejects (out : Outcome) (env : Env ChangePasswordView)
    (h : env.view.formData.newPassword ≠ env.view.formData.confirmPassword ∨
      jsLength env.view.formData.newPassword < 8 ∨
      env.view.formData.currentPassword = env.view.formData.newPassword) :
    handleSubmit out env = (.ok (), { env with view := { env.view with
      error := .str
        (if env.view.formData.newPassword ≠ env.view.formData.confirmPassword then
          "New passwords do not match"
        else if jsLength env.view.formData.newPassword < 8 then
          "New password must be at least 8 characters long"
        else "New password must be different from current password") } }) := by
  by_cases h1 : env.view.formData.newPassword ≠ env.view.formData.confirmPassword
  · simp [handleSubmit, bind, Js.seq, Js.getView, Js.setView, h1]
  · by_cases h8 : jsLength env.view.formData.newPassword < 8
    · simp [handleSubmit, bind, Js.seq, Js.getView, Js.setView, h1, h8]
    · have hs : env.view.formData.currentPassword = env.view.formData.newPassword := by
        rcases h with h | h | h
        · exact absurd h h1
        · exact absurd h h8
        · exact h
      simp [handleSubmit, bind, Js.seq, Js.getView, Js.setView, h1, h8, hs]

/-- C18: when `newPassword` differs from `confirmPassword`, `handleSubmit`
completes, sets the error to exactly `New passwords do not match`, sends nothing
and leaves `isSubmitting` and `isSuccess` (false on a form that is shown and not
in flight) as they were. -/
theorem handleSubmit_mismatch (out : Outcome) (env : Env ChangePasswordView)
    (h : env.view.formData.newPassword ≠ env.view.formData.confirmPassword) :
    (handleSubmit out env).1 = .ok () ∧
    (handleSubmit out env).2.view.error = .str "New passwords do not match" ∧
    (handleSubmit out env).2.sent = env.sent ∧
    (handleSubmit out env).2.view.isSubmitting = env.view.isSubmitting ∧
    (handleSubmit out env).2.view.isSuccess = env.view.isSuccess ∧
    ChangePasswordView.initial.isSubmitting = false ∧
    ChangePasswordView.initial.isSuccess = false := by
  rw [handleSubmit_rejects out env (Or.inl h)]
  simp [h, ChangePasswordView.initial]

/-- C18, witness: two different new passwords. -/
theorem handleSubmit_mismatch_witness :
    (handleSubmit (.resolved ⟨200, .null⟩)
      (passwordPage ⟨"old-password", "new-password", "new-passwore"⟩)).2.sent = [] :=
  (handleSubmit_mismatch (.resolved ⟨200, .null⟩)
    (passwordPage ⟨"old-password", "new-password", "new-passwore"⟩) (by decide)).2.2.1

/-- C19, counterexample: the new password equals the current one and the
confirmation differs; the error shown is `New passwords do not match`. -/
theorem handleSubmit_same_and_mismatch :
    (handleSubmit (.resolved ⟨200, .null⟩)
      (passwordPage ⟨"password1", "password1", "different1"⟩)).2.view.error =
      .str "New passwords do not match" := by
  rfl

/-- C19, amended: when `newPassword` is identical to `currentPassword`,
`handleSubmit` sends nothing and sets the error of the first failing check, in
the order mismatch, length, same-as-current: it is the distinct message
`New password must be different from current password` exactly when the
confirmation matches and the new password has at least 8 UTF-16 units. -/
theorem handleSubmit_same_as_current (out : Outcome) (env : Env ChangePasswordView)
    (h : env.view.formData.newPassword = env.view.formData.currentPassword) :
    (handleSubmit out env).1 = .ok () ∧
    (handleSubmit out env).2.sent = env.sent ∧
    (handleSubmit out env).2.view.error = .str
      (if env.view.formData.newPassword ≠ env.view.formData.confirmPassword then
        "New passwords do not match"
      else if jsLength env.view.formData.newPassword < 8 then
        "New password must be at least 8 characters long"
      else "New password must be different from current password") ∧
    "New password must be different from current password" ≠ "New passwords do not match" ∧
    "New password must be at least 8 characters long" ≠ "New passwords do not match" := by
  rw [handleSubmit_rejects out env (Or.inr (Or.inr h.symm))]
  exact ⟨rfl, rfl, rfl, by decide, by decide⟩

/-- C19, witness: the current password typed again as the new one, confirmed. -/
theorem handleSubmit_same_as_current_witness :
    (handleSubmit (.resolved ⟨200, .null⟩)
      (passwordPage ⟨"password1", "password1", "password1"⟩)).2.view.error =
      .str "New password must be different from current password" :=
  (handleSubmit_same_as_current (.resolved ⟨200, .null⟩)
    (passwordPage ⟨"password1", "password1", "password1"⟩) rfl).2.2.1

/-! ## Claims on the life of the shared view -/

/-- What `loadSharedContract` does to `loading` and `error`: the first becomes
false, the second is kept or replaced by the message. -/
theorem loadSharedContract_loading_error (token : String) (out : Outcome)
    (env : Env SharedView) :
    (loadSharedContract token out env).2.view.loading = false ∧
    ((loadSharedContract token out env).2.view.error = env.view.error ∨
     (loadSharedContract token out env).2.view.error = .str shareLinkError) := by
  cases hf : out.fetchFails
  · cases out with
    | rejected resp => simp [Outcome.fetchFails] at hf
    | resolved r =>
      have hn : r.data.isNullish = false := hf
      obtain ⟨_, h2⟩ := loadSharedContract_of_payload token r env hn
      rw [h2]; exact ⟨rfl, Or.inl rfl⟩
  · obtain ⟨_, h2⟩ := loadSharedContract_of_fails token out env hf
    rw [h2]; exact ⟨rfl, Or.inr rfl⟩

/-- The fields `handleFeedbackSubmit` leaves alone. -/
theorem handleFeedbackSubmit_frame (token : String) (feedbackForm : FeedbackForm)
    (submitOut commentsOut : Outcome) (toastId : Nat) (env : Env SharedView) :
    (handleFeedbackSubmit token feedbackForm submitOut commentsOut toastId env).2.view.contract
      = env.view.contract ∧
    (handleFeedbackSubmit token feedbackForm submitOut commentsOut toastId env).2.view.analysis
      = env.view.analysis ∧
    (handleFeedbackSubmit token feedbackForm submitOut commentsOut toastId env).2.view.error
      = env.view.error ∧
    (handleFeedbackSubmit token feedbackForm submitOut commentsOut toastId env).2.view.loading
      = env.view.loading := by
  cases submitOut with
  | rejected resp =>
    rw [handleFeedbackSubmit_rejected_view token feedbackForm resp commentsOut toastId env]
    exact ⟨rfl, rfl, rfl, rfl⟩
  | resolved r =>
    cases commentsOut with
    | resolved cr =>
      simp [handleFeedbackSubmit, Js.tryFinally, Js.tryCatch, submitFeedback_run, bind, Js.seq,
        Js.setView, toast.success, showToast, afterDispatch, getSharedComments_run]
    | rejected cresp =>
      cases h401 : (JsError.axios cresp).statusIs401 <;>
      simp [handleFeedbackSubmit, Js.tryFinally, Js.tryCatch, submitFeedback_run, bind, Js.seq,
        Js.setView, toast.error, showToast, afterDispatch, getSharedComments_run,
        afterRejection, h401]

/-- One operation keeps `loading` false and keeps an error on the screen. -/
theorem sharedOp_keeps (op : SharedOp) (env : Env SharedView)
    (h : env.view.loading = false) :
    (op.run env).view.loading = false ∧
    (env.view.error.truthy = true → (op.run env).view.error.truthy = true) := by
  cases op with
  | load token out =>
    obtain ⟨h1, h2⟩ := loadSharedContract_loading_error token out env
    refine ⟨h1, fun he => ?_⟩
    rcases h2 with h2 | h2
    · simp only [SharedOp.run]; rw [h2]; exact he
    · simp only [SharedOp.run]; rw [h2]; decide
  | submit token submitOut commentsOut toastId =>
    obtain ⟨_, _, h3, h4⟩ :=
      handleFeedbackSubmit_frame token env.view.feedbackForm submitOut commentsOut toastId env
    have e : (SharedOp.submit token submitOut commentsOut toastId).run env =
      (handleFeedbackSubmit token env.view.feedbackForm submitOut commentsOut toastId env).2 :=
      rfl
    rw [e, h3, h4]
    exact ⟨h, fun he => he⟩
  | editName value => exact ⟨h, fun he => he⟩
  | editEmail value => exact ⟨h, fun he => he⟩
  | editText value => exact ⟨h, fun he => he⟩
  | clickStar rating => exact ⟨h, fun he => he⟩
  | openFeedback => exact ⟨h, fun he => he⟩
  | closeFeedback => exact ⟨h, fun he => he⟩

/-- C20, amended: once `loading` is false no sequence of operations on the
shared view (re-runs of `loadSharedContract`, feedback submissions with any
outcome, form edits) makes it true again, and an Expired view stays Expired;
`handleFeedbackSubmit`, its comments refresh included, leaves `contract`,
`analysis`, `error` and `loading` as they were. -/
theorem shared_view_terminal (ops : List SharedOp) (env : Env SharedView)
    (h : env.view.loading = false) :
    (runShared ops env).view.loading = false ∧
    (env.view.isExpired = true → (runShared ops env).view.isExpired = true) ∧
    (∀ (token : String) (feedbackForm : FeedbackForm) (submitOut commentsOut : Outcome)
      (toastId : Nat),
      (handleFeedbackSubmit token feedbackForm submitOut commentsOut toastId env).2.view.contract
        = env.view.contract ∧
      (handleFeedbackSubmit token feedbackForm submitOut commentsOut toastId env).2.view.analysis
        = env.view.analysis ∧
      (handleFeedbackSubmit token feedbackForm submitOut commentsOut toastId env).2.view.error
        = env.view.error ∧
      (handleFeedbackSubmit token feedbackForm submitOut commentsOut toastId env).2.view.loading
        = env.view.loading) := by
  refine ⟨?_, ?_, fun token feedbackForm submitOut commentsOut toastId =>
    handleFeedbackSubmit_frame token feedbackForm submitOut commentsOut toastId env⟩
  · induction ops generalizing env with
    | nil => exact h
    | cons op rest ih => exact ih (op.run env) (sharedOp_keeps op env h).1
  · induction ops generalizing env with
    | nil => exact fun he => he
    | cons op rest ih =>
      intro he
      have hk := sharedOp_keeps op env h
      have hexp : (op.run env).view.isExpired = true := by
        simp only [SharedView.isExpired, Bool.and_eq_true, Bool.not_eq_true'] at he ⊢
        exact ⟨hk.1, hk.2 he.2⟩
      exact ih (op.run env) hk.1 hexp

/-- C20, witness: an Expired view, a successful re-run of the load and a
submission. -/
theorem shared_view_terminal_witness :
    (runShared [.load "tok2" (.resolved ⟨200, .obj [("contract", .obj [])]⟩),
        .submit "tok2" (.resolved ⟨200, .null⟩) (.resolved ⟨200, .arr []⟩) 7]
      (loadSharedContract "tok" (.rejected none) signedInSharedPage).2).view.loading = false :=
  (shared_view_terminal _ (loadSharedContract "tok" (.rejected none) signedInSharedPage).2
    rfl).1

/-- C20, counterexample: a Ready view whose `loadSharedContract` runs again and
fails shows the `Link Expired` screen. -/
theorem ready_view_becomes_expired :
    readySharedPage.view.isReady = true ∧
    (runShared [.load "tok2" (.rejected none)] readySharedPage).view.isExpired = true := by
  decide

/-! ## Claims on the request interceptor, the toast queue and the risk badges -/

/-- Reading back the header that was just assigned. -/
theorem getHeader_setHeader_same (k v : String) (hs : List (String × String)) :
    getHeader k (setHeader k v hs) = some v := by
  induction hs with
  | nil => simp [setHeader, getHeader]
  | cons h rest ih =>
    obtain ⟨k', v'⟩ := h
    by_cases hk : k' = k <;> simp [setHeader, getHeader, hk, ih]

/-- Assigning one header leaves the others as they were. -/
theorem getHeader_setHeader_other (k v k2 : String) (hs : List (String × String))
    (h : k2 ≠ k) : getHeader k2 (setHeader k v hs) = getHeader k2 hs := by
  induction hs with
  | nil => simp [setHeader, getHeader, h.symm]
  | cons hd rest ih =>
    obtain ⟨k', v'⟩ := hd
    by_cases hk : k' = k
    · subst hk
      simp [setHeader, getHeader, h.symm]
    · by_cases hk2 : k' = k2
      · subst hk2
        simp [setHeader, getHeader, hk]
      · simp [setHeader, getHeader, hk, hk2, ih]

/-- C24: the request interceptor never throws and leaves the page as it is;
with a non-empty token stored it returns the configuration with the header
`Authorization` set to `Bearer ` followed by the token verbatim, every other
header, the method, the URL and the body unchanged; with no token or an empty
token stored it returns the configuration unchanged. -/
theorem requestInterceptor_spec {σ : Type} (config : Request) (env : Env σ) :
    (requestInterceptor config env).2 = env ∧
    (requestInterceptor config env).1 = .ok
      (match env.authToken with
       | some t =>
         if t ≠ "" then
           { config with headers := setHeader "Authorization" ("Bearer " ++ t) config.headers }
         else config
       | none => config) ∧
    (∀ t : String, getHeader "Authorization"
        (setHeader "Authorization" ("Bearer " ++ t) config.headers) = some ("Bearer " ++ t)) ∧
    (∀ (t k : String), k ≠ "Authorization" →
      getHeader k (setHeader "Authorization" ("Bearer " ++ t) config.headers) =
        getHeader k config.headers) := by
  refine ⟨by rw [requestInterceptor_run], ?_, fun t => getHeader_setHeader_same _ _ _,
    fun t k hk => getHeader_setHeader_other _ _ _ _ hk⟩
  rw [requestInterceptor_run]
  rfl

/-- C26: `showToast` appends exactly one entry at the end of the list, with the
given message and type (`info` and 5000 for an omitted type and duration), and
leaves the earlier entries in place; `removeToast(id)` keeps exactly the entries
with another id, in their order; removing twice is removing once, and removing
an id that no entry carries changes nothing. -/
theorem toast_queue {σ : Type} (message : String) (type : Option String)
    (duration : Option Nat) (id : Nat) (env : Env σ) :
    (showToast message type duration id env).2.toasts =
      env.toasts ++ [{ id := id, message := message, type := type.getD "info",
                       duration := duration.getD 5000 }] ∧
    (showToast message none none id env).2.toasts =
      env.toasts ++ [{ id := id, message := message, type := "info", duration := 5000 }] ∧
    (removeToast id env).2.toasts = env.toasts.filter (fun t => t.id ≠ id) ∧
    (∀ t : Toast, t ∈ (removeToast id env).2.toasts ↔ t ∈ env.toasts ∧ t.id ≠ id) ∧
    (removeToast id env).2.toasts.Sublist env.toasts ∧
    (removeToast id (removeToast id env).2).2 = (removeToast id env).2 ∧
    ((∀ t ∈ env.toasts, t.id ≠ id) → (removeToast id env).2 = env) := by
  refine ⟨rfl, rfl, rfl, ?_, ?_, ?_, ?_⟩
  · intro t
    simp [removeToast, List.mem_filter]
  · exact List.filter_sublist _
  · simp [removeToast, List.filter_filter]
  · intro h
    have : env.toasts.filter (fun t => decide (t.id ≠ id)) = env.toasts :=
      List.filter_eq_self.2 (fun t ht => by simpa using h t ht)
    simp only [removeToast]
    rw [this]

/-- C29, evaluation at the failing input: for a risk factor without a
`risk_score` (and for one whose `risk_score` is 0) the badge shows the number 50
in the green classes, while 50 classifies as yellow. -/
theorem factor_badge_mismatch :
    ContractDetail.factorBadgeNumber none = 50 ∧
    ContractDetail.factorBadgeClass none = "bg-green-100 text-green-800" ∧
    badgeClassOf (ContractDetail.factorBadgeNumber none) = "bg-yellow-100 text-yellow-800" ∧
    ContractDetail.factorBadgeNumber (some 0) = 50 ∧
    ContractDetail.factorBadgeClass (some 0) = "bg-green-100 text-green-800" := by
  decide

/-- The score `score || 0` of a number is the number. -/
theorem scoreOr_zero (n : Int) : scoreOr (some n) 0 = n := by
  by_cases h : n = 0 <;> simp [scoreOr, h]

/-- The rank of the level of a number, by thresholds. -/
theorem riskRank_level (n : Int) :
    riskRank (SharedContractView.getRiskLevel (some n)) =
      if 70 ≤ n then 2 else if 40 ≤ n then 1 else 0 := by
  unfold SharedContractView.getRiskLevel
  rw [scoreOr_zero]
  by_cases h70 : 70 ≤ n
  · simp only [ge_iff_le, h70, if_true]; decide
  · by_cases h40 : 40 ≤ n
    · simp only [ge_iff_le, h70, h40, if_true, if_false]; decide
    · simp only [ge_iff_le, h70, h40, if_false]; decide

/-- C30: `getRiskLevel` and `getRiskColor` of `SharedContractView` classify with
the same thresholds: 70 and above gives `High Risk` and `#ef4444`, 40 to below
70 gives `Medium Risk` and `#f59e0b`, below 40 or an absent score gives
`Low Risk` and `#10b981`; the level is monotone in the score; and
`getRiskLevel` of `ContractDetail` returns the same level for every score,
absent scores included. -/
theorem risk_classification (score : Option Int) (n m : Int) :
    SharedContractView.getRiskLevel (some n) =
      (if 70 ≤ n then "High Risk" else if 40 ≤ n then "Medium Risk" else "Low Risk") ∧
    SharedContractView.getRiskColor (some n) =
      (if 70 ≤ n then "#ef4444" else if 40 ≤ n then "#f59e0b" else "#10b981") ∧
    SharedContractView.getRiskLevel none = "Low Risk" ∧
    SharedContractView.getRiskColor none = "#10b981" ∧
    (n ≤ m → riskRank (SharedContractView.getRiskLevel (some n)) ≤
      riskRank (SharedContractView.getRiskLevel (some m))) ∧
    riskRank "Low Risk" < riskRank "Medium Risk" ∧
    riskRank "Medium Risk" < riskRank "High Risk" ∧
    ContractDetail.getRiskLevel score = SharedContractView.getRiskLevel score := by
  refine ⟨?_, ?_, by decide, by decide, ?_, by decide, by decide, ?_⟩
  · unfold SharedContractView.getRiskLevel; rw [scoreOr_zero]
  · unfold SharedContractView.getRiskColor; rw [scoreOr_zero]
  · intro h
    rw [riskRank_level, riskRank_level]
    split_ifs <;> omega
  · cases score with
    | none => decide
    | some k =>
      unfold ContractDetail.getRiskLevel SharedContractView.getRiskLevel
      rw [scoreOr_zero]
      simp [scoreGe]

/-! ## Claims on stale loads, `register` and the feedback toast -/

/-- Issuing a request leaves everything but the list of sent requests. -/
theorem api_send_run {σ : Type} (config : Request) (env : Env σ) :
    api.send config env = (.ok (), afterDispatch config env) := by
  simp [api.send, bind, Js.seq, requestInterceptor_run, dispatch, afterDispatch]

/-- The arrival of an answer, case by case. -/
theorem api_receive_run {σ : Type} (out : Outcome) (env : Env σ) :
    api.receive out env =
      match out with
      | .resolved r => (.ok r, env)
      | .rejected resp => (.error (.axios resp), afterRejection (.axios resp) env) := by
  cases out <;> simp [api.receive, pure, Js.ret, responseInterceptorError_run]

/-- A load run in one piece is its first half followed by its second half. -/
theorem loadSharedContract_split (token : String) (out : Outcome) (env : Env SharedView) :
    loadSharedContract token out env =
      loadSharedContractResume out (loadSharedContractStart token env).2 := by
  cases out with
  | rejected resp =>
    simp [loadSharedContract, loadSharedContractResume, loadSharedContractStart, Js.tryFinally,
      Js.tryCatch, getSharedContract_run, api_send_run, api_receive_run, bind, Js.seq,
      Js.setView]
  | resolved r =>
    cases hn : r.data.isNullish <;>
    simp [loadSharedContract, loadSharedContractResume, loadSharedContractStart, Js.tryFinally,
      Js.tryCatch, getSharedContract_run, api_send_run, api_receive_run, bind, Js.seq,
      Js.setView, JsVal.get, hn, Js.ofExcept, Js.ret, Js.throw]

/-- The second half of a load on a payload whose properties can be read. -/
theorem loadSharedContractResume_payload (r : HttpResponse) (env : Env SharedView)
    (hn : r.data.isNullish = false) :
    loadSharedContractResume (.resolved r) env =
      (.ok (), { env with view := { env.view with
        contract := r.data.prop "contract"
        analysis := (r.data.prop "analysis").or .null
        comments := (r.data.prop "comments").or (.arr [])
        loading := false } }) := by
  simp [loadSharedContractResume, Js.tryFinally, Js.tryCatch, api_receive_run, bind, Js.seq,
    Js.setView, JsVal.get, hn, Js.ofExcept, Js.ret]

/-- C21, counterexample: the token changes from `old` to `new` while the request
for `old` is in flight; the answer for `new` arrives first and the answer for
`old` last, and the view ends with the contract of the old token. -/
theorem stale_load_overwrites :
    (afterTwoLoads "old" "new"
      (.resolved ⟨200, .obj [("contract", .obj [("title", .str "Old contract")])]⟩)
      (.resolved ⟨200, .obj [("contract", .obj [("title", .str "New contract")])]⟩)
      true signedInSharedPage).view.contract = .obj [("title", .str "Old contract")] ∧
    ((afterTwoLoads "old" "new"
      (.resolved ⟨200, .obj [("contract", .obj [("title", .str "Old contract")])]⟩)
      (.resolved ⟨200, .obj [("contract", .obj [("title", .str "New contract")])]⟩)
      true signedInSharedPage).sent.map fun r => r.url) =
      ["/contracts/shared/old", "/contracts/shared/new"] :=
  ⟨rfl, by decide⟩

/-- C21, amended: `loadSharedContract` has no guard against a stale completion.
A load is the issue of its request followed, when the answer arrives, by the
writes to the view; when the requests for an old and a new token both succeed
with readable payloads, the view ends with contract, analysis and comments of
the answer that arrived last: those of the new token when the stale answer
arrives first, those of the old token when it arrives last. -/
theorem last_completion_wins (oldToken newToken : String) (rOld rNew : HttpResponse)
    (env : Env SharedView) (hOld : rOld.data.isNullish = false)
    (hNew : rNew.data.isNullish = false) :
    (∀ token out, loadSharedContract token out env =
      loadSharedContractResume out (loadSharedContractStart token env).2) ∧
    (afterTwoLoads oldToken newToken (.resolved rOld) (.resolved rNew) false env).view =
      { env.view with
        contract := rNew.data.prop "contract"
        analysis := (rNew.data.prop "analysis").or .null
        comments := (rNew.data.prop "comments").or (.arr [])
        loading := false } ∧
    (afterTwoLoads oldToken newToken (.resolved rOld) (.resolved rNew) true env).view =
      { env.view with
        contract := rOld.data.prop "contract"
        analysis := (rOld.data.prop "analysis").or .null
        comments := (rOld.data.prop "comments").or (.arr [])
        loading := false } := by
  refine ⟨fun token out => loadSharedContract_split token out env, ?_, ?_⟩
  · simp [afterTwoLoads, loadSharedContractResume_payload, hOld, hNew, loadSharedContractStart,
      api_send_run, afterDispatch]
  · simp [afterTwoLoads, loadSharedContractResume_payload, hOld, hNew, loadSharedContractStart,
      api_send_run, afterDispatch]

/-- C21, witness: two contracts, the stale answer arriving first. -/
theorem last_completion_wins_witness :
    (afterTwoLoads "old" "new"
      (.resolved ⟨200, .obj [("contract", .obj [("title", .str "Old contract")])]⟩)
      (.resolved ⟨200, .obj [("contract", .obj [("title", .str "New contract")])]⟩)
      false signedInSharedPage).view.contract = .obj [("title", .str "New contract")] :=
  congrArg SharedView.contract
    (last_completion_wins "old" "new"
      ⟨200, .obj [("contract", .obj [("title", .str "Old contract")])]⟩
      ⟨200, .obj [("contract", .obj [("title", .str "New contract")])]⟩
      signedInSharedPage rfl rfl).2.1

/-- The run of `register` when the registration call resolves. -/
theorem register_resolved_run (userData : JsVal) (r : HttpResponse) (env : Env AuthState) :
    register userData (.resolved r) env =
      if r.data.isNullish then
        (.ok (.failure (.str "Registration failed")),
          { afterDispatch ⟨"POST", "/auth/register", defaultHeaders, userData⟩ env with
            view := { env.view with error := .str "Registration failed" } })
      else
        (.ok .success,
          { afterDispatch ⟨"POST", "/auth/register", defaultHeaders, userData⟩ env with
            authToken := some (r.data.prop "access_token").toJsString
            view := { env.view with error := .null, user := r.data.prop "user" } }) := by
  cases hn : r.data.isNullish
  · simp [register, Js.tryCatch, bind, Js.seq, Js.setView, authRegister_run, pure, Js.ret,
      JsVal.get, hn, Js.ofExcept, localStorage.setItem, afterDispatch]
  · simp [register, Js.tryCatch, bind, Js.seq, Js.setView, authRegister_run, pure, Js.ret,
      JsVal.get, hn, Js.ofExcept, Js.throw, afterDispatch, JsError.detail, JsError.response,
      JsVal.or, JsVal.truthy]

/-- C22, counterexample: the registration response carries a token and no user;
`register` returns `{success: true}` and the in-memory user is `undefined`.  And
a response with a user and no token stores the string `undefined`. -/
theorem register_success_without_user :
    (register (.obj [("email", .str "a@b.c")])
      (.resolved ⟨201, .obj [("access_token", .str "t")]⟩) signedInMount).1 = .ok .success ∧
    (register (.obj [("email", .str "a@b.c")])
      (.resolved ⟨201, .obj [("access_token", .str "t")]⟩) signedInMount).2.view.user.truthy
        = false ∧
    (register (.obj [("email", .str "a@b.c")])
      (.resolved ⟨201, .obj [("user", .obj [("email", .str "a@b.c")])]⟩)
      signedInMount).2.authToken = some "undefined" :=
  ⟨rfl, rfl, rfl⟩

/-- C22, amended: whenever `register` returns `{success: true}`, the
registration call resolved with a readable payload, the value stored under
`'authToken'` is the string conversion of the `access_token` of that payload
(the `access_token` itself when it is a string, `1e+21` when it is the number
`1000000000000000000000`) and the in-memory user is the `user` property of that
payload, present exactly when the payload carries one. -/
theorem register_success (userData : JsVal) (out : Outcome) (env : Env AuthState)
    (h : (register userData out env).1 = .ok .success) :
    ∃ r : HttpResponse, out = .resolved r ∧ r.data.isNullish = false ∧
      (register userData out env).2.authToken = some (r.data.prop "access_token").toJsString ∧
      (∀ t : String, (JsVal.str t).toJsString = t) ∧
      (JsVal.num 1000000000000000000000).toJsString = "1e+21" ∧
      (register userData out env).2.view.user = r.data.prop "user" := by
  cases out with
  | rejected resp =>
    rw [register_rejected_run] at h
    cases h
  | resolved r =>
    rw [register_resolved_run] at h ⊢
    cases hn : r.data.isNullish
    · exact ⟨r, rfl, hn, by simp, fun t => rfl, by decide, by simp⟩
    · rw [hn] at h
      cases h

/-- C22, witness: a registration answered with a token and a user. -/
theorem register_success_witness :
    ∃ r : HttpResponse,
      Outcome.resolved ⟨201, .obj [("access_token", .str "t"),
        ("user", .obj [("email", .str "a@b.c")])]⟩ = .resolved r ∧
      r.data.isNullish = false ∧
      (register (.obj [("email", .str "a@b.c")])
        (.resolved ⟨201, .obj [("access_token", .str "t"),
          ("user", .obj [("email", .str "a@b.c")])]⟩) signedInMount).2.authToken =
        some (r.data.prop "access_token").toJsString ∧
      (∀ t : String, (JsVal.str t).toJsString = t) ∧
      (JsVal.num 1000000000000000000000).toJsString = "1e+21" ∧
      (register (.obj [("email", .str "a@b.c")])
        (.resolved ⟨201, .obj [("access_token", .str "t"),
          ("user", .obj [("email", .str "a@b.c")])]⟩) signedInMount).2.view.user =
        r.data.prop "user" :=
  register_success (.obj [("email", .str "a@b.c")])
    (.resolved ⟨201, .obj [("access_token", .str "t"),
      ("user", .obj [("email", .str "a@b.c")])]⟩) signedInMount rfl

/-- C28, evaluation at the failing input: the backend accepts the feedback and
the comments refresh fails; the one toast shown is the error toast
`Failed to submit feedback. Please try again.`. -/
theorem accepted_feedback_reported_as_failure :
    ((clickSubmitFeedback "tok" (.resolved ⟨200, .null⟩) (.rejected none) 7
      draftedSharedPage).2.sent.map fun r => (r.method, r.url)) =
        [("POST", "/contracts/shared/tok/feedback"), ("GET", "/contracts/shared/tok/comments")] ∧
    (clickSubmitFeedback "tok" (.resolved ⟨200, .null⟩) (.rejected none) 7
      draftedSharedPage).2.toasts =
        [{ id := 7, message := "Failed to submit feedback. Please try again.",
           type := "error", duration := 5000 }] := by
  decide

/-! ## Claims on the dispatch of the password update -/

/-- The run of `handleSubmit` when all three checks pass. -/
theorem handleSubmit_accepts (out : Outcome) (env : Env ChangePasswordView)
    (h1 : env.view.formData.newPassword = env.view.formData.confirmPassword)
    (h8 : 8 ≤ jsLength env.view.formData.newPassword)
    (hs : env.view.formData.currentPassword ≠ env.view.formData.newPassword) :
    (handleSubmit out env).1 = .ok () ∧
    (handleSubmit out env).2.sent = env.sent ++ [withBearer env.authToken
      { method := "POST", url := "/auth/password-update", headers := defaultHeaders,
        data := .obj [("current_password", .str env.view.formData.currentPassword),
          ("new_password", .str env.view.formData.newPassword)] }] ∧
    (handleSubmit out env).2.view.error =
      (match out with
       | .resolved _ => .str ""
       | .rejected resp =>
         (JsError.axios resp).detail.or (.str "Failed to update password. Please try again.")) ∧
    (handleSubmit out env).2.view.isSubmitting = false := by
  have h8' : ¬ jsLength env.view.formData.newPassword < 8 := by omega
  have h1n : ¬ env.view.formData.newPassword ≠ env.view.formData.confirmPassword :=
    not_not.2 h1
  clear h1
  cases out with
  | resolved pr =>
    simp [handleSubmit, bind, Js.seq, Js.getView, Js.setView, h1n, h8', hs,
      Js.tryFinally, Js.tryCatch, updatePassword_run, afterDispatch]
  | rejected presp =>
    cases h401 : (JsError.axios presp).statusIs401 <;>
    simp [handleSubmit, bind, Js.seq, Js.getView, Js.setView, h1n, h8', hs,
      Js.tryFinally, Js.tryCatch, updatePassword_run, afterDispatch, afterRejection, h401]

/-- A password update run in one piece is its first half followed by its second. -/
theorem handleSubmit_split (out : Outcome) (env : Env ChangePasswordView) :
    handleSubmit out env = handleSubmitInTwo out env := by
  by_cases h1 : env.view.formData.newPassword ≠ env.view.formData.confirmPassword
  · simp [handleSubmit, handleSubmitInTwo, handleSubmitStart, bind, Js.seq, Js.getView,
      Js.setView, h1, pure, Js.ret]
  · by_cases h8 : jsLength env.view.formData.newPassword < 8
    · simp [handleSubmit, handleSubmitInTwo, handleSubmitStart, bind, Js.seq, Js.getView,
        Js.setView, h1, h8, pure, Js.ret]
    · by_cases hs : env.view.formData.currentPassword = env.view.formData.newPassword
      · simp [handleSubmit, handleSubmitInTwo, handleSubmitStart, bind, Js.seq, Js.getView,
          Js.setView, h1, h8, hs, pure, Js.ret]
      · cases out with
        | resolved pr =>
          simp [handleSubmit, handleSubmitInTwo, handleSubmitStart, handleSubmitResume, bind,
            Js.seq, Js.getView, Js.setView, h1, h8, hs, pure, Js.ret, Js.tryFinally,
            Js.tryCatch, updatePassword_run, api_send_run, api_receive_run, afterDispatch]
        | rejected presp =>
          simp [handleSubmit, handleSubmitInTwo, handleSubmitStart, handleSubmitResume, bind,
            Js.seq, Js.getView, Js.setView, h1, h8, hs, pure, Js.ret, Js.tryFinally,
            Js.tryCatch, updatePassword_run, api_send_run, api_receive_run, afterDispatch]

/-- The page while the password update is in flight. -/
theorem handleSubmitStart_issued (env : Env ChangePasswordView)
    (h1 : env.view.formData.newPassword = env.view.formData.confirmPassword)
    (h8 : 8 ≤ jsLength env.view.formData.newPassword)
    (hs : env.view.formData.currentPassword ≠ env.view.formData.newPassword) :
    handleSubmitStart env = (.ok true,
      { env with
        sent := env.sent ++ [withBearer env.authToken
          { method := "POST", url := "/auth/password-update", headers := defaultHeaders,
            data := .obj [("current_password", .str env.view.formData.currentPassword),
              ("new_password", .str env.view.formData.newPassword)] }]
        view := { env.view with isSubmitting := true, error := .str "" } }) := by
  have h8' : ¬ jsLength env.view.formData.newPassword < 8 := by omega
  have h1n : ¬ env.view.formData.newPassword ≠ env.view.formData.confirmPassword :=
    not_not.2 h1
  clear h1
  simp [handleSubmitStart, bind, Js.seq, Js.getView, Js.setView, h1n, h8', hs, pure, Js.ret,
    api_send_run, afterDispatch]

/-- C27: `handleSubmit` of `ChangePassword` sends the `updatePassword` request
if and only if `newPassword` equals `confirmPassword`, has at least 8 UTF-16
units and differs from `currentPassword`; it is then sent exactly once, with
the current and the new password, and while it is in flight the error is
already the empty string; when nothing is sent the error is the message of the
first failing check in the order mismatch, length, same-as-current. -/
theorem handleSubmit_dispatch (out : Outcome) (env : Env ChangePasswordView) :
    (handleSubmit out env).1 = .ok () ∧
    (handleSubmit out env).2.sent = env.sent ++
      (if env.view.formData.newPassword = env.view.formData.confirmPassword ∧
          8 ≤ jsLength env.view.formData.newPassword ∧
          env.view.formData.currentPassword ≠ env.view.formData.newPassword then
        [withBearer env.authToken
          { method := "POST", url := "/auth/password-update", headers := defaultHeaders,
            data := .obj [("current_password", .str env.view.formData.currentPassword),
              ("new_password", .str env.view.formData.newPassword)] }]
      else []) ∧
    (handleSubmit out env).2.view.error =
      (if env.view.formData.newPassword ≠ env.view.formData.confirmPassword then
        .str "New passwords do not match"
      else if jsLength env.view.formData.newPassword < 8 then
        .str "New password must be at least 8 characters long"
      else if env.view.formData.currentPassword = env.view.formData.newPassword then
        .str "New password must be different from current password"
      else match out with
        | .resolved _ => .str ""
        | .rejected resp =>
          (JsError.axios resp).detail.or
            (.str "Failed to update password. Please try again.")) ∧
    handleSubmit out env = handleSubmitInTwo out env ∧
    (env.view.formData.newPassword = env.view.formData.confirmPassword →
      8 ≤ jsLength env.view.formData.newPassword →
      env.view.formData.currentPassword ≠ env.view.formData.newPassword →
      (handleSubmitStart env).1 = .ok true ∧
      (handleSubmitStart env).2.view.error = .str "" ∧
      (handleSubmitStart env).2.sent = env.sent ++ [withBearer env.authToken
        { method := "POST", url := "/auth/password-update", headers := defaultHeaders,
          data := .obj [("current_password", .str env.view.formData.currentPassword),
            ("new_password", .str env.view.formData.newPassword)] }]) := by
  refine ⟨?_, ?_, ?_, handleSubmit_split out env, ?_⟩
  · by_cases h : env.view.formData.newPassword ≠ env.view.formData.confirmPassword ∨
        jsLength env.view.formData.newPassword < 8 ∨
        env.view.formData.currentPassword = env.view.formData.newPassword
    · rw [handleSubmit_rejects out env h]
    · have h1 : env.view.formData.newPassword = env.view.formData.confirmPassword :=
        not_not.1 fun hne => h (Or.inl hne)
      have h8 : 8 ≤ jsLength env.view.formData.newPassword := by
        have : ¬ jsLength env.view.formData.newPassword < 8 := fun hlt => h (Or.inr (Or.inl hlt))
        omega
      have hs : env.view.formData.currentPassword ≠ env.view.formData.newPassword :=
        fun he => h (Or.inr (Or.inr he))
      exact (handleSubmit_accepts out env h1 h8 hs).1
  · by_cases h1 : env.view.formData.newPassword ≠ env.view.formData.confirmPassword
    · rw [handleSubmit_rejects out env (Or.inl h1)]
      simp [h1]
    · by_cases h8 : jsLength env.view.formData.newPassword < 8
      · rw [handleSubmit_rejects out env (Or.inr (Or.inl h8))]
        have h8' : ¬ 8 ≤ jsLength env.view.formData.newPassword := by omega
        simp [h8']
      · by_cases hs : env.view.formData.currentPassword = env.view.formData.newPassword
        · rw [handleSubmit_rejects out env (Or.inr (Or.inr hs))]
          simp [hs]
        · have h1' : env.view.formData.newPassword = env.view.formData.confirmPassword :=
            not_not.1 h1
          have h8' : 8 ≤ jsLength env.view.formData.newPassword := by omega
          rw [(handleSubmit_accepts out env h1' h8' hs).2.1, if_pos ⟨h1', h8', hs⟩]
  · by_cases h1 : env.view.formData.newPassword ≠ env.view.formData.confirmPassword
    · rw [handleSubmit_rejects out env (Or.inl h1)]
      simp [h1]
    · by_cases h8 : jsLength env.view.formData.newPassword < 8
      · rw [handleSubmit_rejects out env (Or.inr (Or.inl h8))]
        simp [h1, h8]
      · by_cases hs : env.view.formData.currentPassword = env.view.formData.newPassword
        · rw [handleSubmit_rejects out env (Or.inr (Or.inr hs))]
          simp [h1, h8, hs]
        · have h1' : env.view.formData.newPassword = env.view.formData.confirmPassword :=
            not_not.1 h1
          have h8' : 8 ≤ jsLength env.view.formData.newPassword := by omega
          rw [(handleSubmit_accepts out env h1' h8' hs).2.2.1, if_neg h1, if_neg h8, if_neg hs]
  · intro h1 h8 hs
    rw [handleSubmitStart_issued env h1 h8 hs]
    exact ⟨rfl, rfl, rfl⟩

/-! ## Claims on the upload form -/

/-- Dropping a prefix of white space does not change whether all is white space. -/
theorem all_dropWhile (p : Char → Bool) (l : List Char) :
    (l.dropWhile p).all p = l.all p := by
  induction l with
  | nil => rfl
  | cons x xs ih =>
    cases hx : p x <;> simp [List.dropWhile, hx, ih]

/-- A string trims to the empty string exactly when it is blank. -/
theorem jsTrim_eq_empty_iff (s : String) : jsTrim s = "" ↔ isBlank s = true := by
  unfold jsTrim isBlank
  rw [← all_dropWhile isJsWhitespace s.data]
  constructor
  · intro h
    have h1 : ((s.data.dropWhile isJsWhitespace).reverse.dropWhile isJsWhitespace).reverse
        = [] := by
      have := congrArg String.data h
      simpa using this
    have h2 : (s.data.dropWhile isJsWhitespace).reverse.dropWhile isJsWhitespace = [] := by
      simpa using h1
    rw [List.dropWhile_eq_nil_iff] at h2
    rw [List.all_eq_true]
    intro x hx
    exact h2 x (List.mem_reverse.2 hx)
  · intro h
    rw [List.all_eq_true] at h
    have h2 : (s.data.dropWhile isJsWhitespace).reverse.dropWhile isJsWhitespace = [] := by
      rw [List.dropWhile_eq_nil_iff]
      intro x hx
      exact h x (List.mem_reverse.1 hx)
    rw [h2]
    rfl

/-- The call `contractsAPI.upload` with the three metadata strings. -/
theorem upload_run {σ : Type} (file : JsVal) (title description contract_type : String)
    (out : Outcome) (env : Env σ) :
    contractsAPI.upload file [("title", .str title), ("description", .str description),
        ("contract_type", .str contract_type)] out env =
      match out with
      | .resolved r => (.ok r.data,
          afterDispatch (uploadRequest file title description contract_type) env)
      | .rejected resp => (.error (.axios resp), afterRejection (.axios resp)
          (afterDispatch (uploadRequest file title description contract_type) env)) := by
  have e : contractsAPI.upload (σ := σ) file [("title", .str title),
      ("description", .str description), ("contract_type", .str contract_type)] out =
      Js.seq (api.request (uploadRequest file title description contract_type) out)
        fun response => Js.ret response.data := by
    simp [contractsAPI.upload, uploadRequest, JsVal.isNullish, bind, pure]
  rw [e, api_data_run]

/-- The run of `handleUpload` on a blank custom type. -/
theorem handleUpload_blank_custom (out : Outcome) (toastId : Nat) (env : Env DashboardView)
    (hf : env.view.selectedFile.truthy = true)
    (hc : env.view.uploadForm.contract_type = "custom")
    (hb : isBlank env.view.uploadForm.custom_type = true) :
    handleUpload out toastId env =
      (.ok (), { env with
        toasts := env.toasts ++ [⟨toastId, "Please enter a custom contract type.", "warning", 5000⟩]
        view := { env.view with isUploading := false } }) := by
  have ht : jsTrim env.view.uploadForm.custom_type = "" := (jsTrim_eq_empty_iff _).2 hb
  simp [handleUpload, bind, Js.seq, Js.getView, Js.setView, hf, hc, ht, Js.tryFinally,
    toast.warning, showToast]

/-- The requests `handleUpload` sends when the form passes its check. -/
theorem handleUpload_sends (out : Outcome) (toastId : Nat) (env : Env DashboardView)
    (hf : env.view.selectedFile.truthy = true)
    (hv : ¬ (env.view.uploadForm.contract_type = "custom" ∧
      isBlank env.view.uploadForm.custom_type = true)) :
    (handleUpload out toastId env).2.sent = env.sent ++ [withBearer env.authToken
      (uploadRequest env.view.selectedFile env.view.uploadForm.title
        env.view.uploadForm.description
        (if env.view.uploadForm.contract_type = "custom" then
          jsTrim env.view.uploadForm.custom_type
         else env.view.uploadForm.contract_type))] ∧
    (handleUpload out toastId env).2.view.isUploading = false := by
  have hcond : ¬ (env.view.uploadForm.contract_type = "custom" ∧
      (env.view.uploadForm.custom_type = "" ∨ jsTrim env.view.uploadForm.custom_type = "")) := by
    rintro ⟨h1, h2⟩
    apply hv
    refine ⟨h1, ?_⟩
    rcases h2 with h2 | h2
    · rw [h2]; rfl
    · exact (jsTrim_eq_empty_iff _).1 h2
  cases out with
  | resolved r =>
    simp [handleUpload, bind, Js.seq, Js.getView, Js.setView, hf, hcond, Js.tryFinally,
      uploadMutation.mutateAsync, Js.tryCatch, upload_run, toast.success, showToast,
      afterDispatch, pure, Js.ret]
  | rejected resp =>
    cases h401 : (JsError.axios resp).statusIs401 <;>
    simp [handleUpload, bind, Js.seq, Js.getView, Js.setView, hf, hcond, Js.tryFinally,
      uploadMutation.mutateAsync, Js.tryCatch, upload_run, toast.error, showToast,
      afterDispatch, afterRejection, h401, Js.throw]

/-- C25: with no file selected `handleUpload` does nothing.  With a file
selected, when `contract_type` is `custom` and `custom_type` is empty or only
white space it sends nothing, shows the warning
`Please enter a custom contract type.` and ends with `isUploading` false;
otherwise it sends exactly one upload, whose `contract_type` is `custom_type`
trimmed (and then not empty) when `contract_type` is `custom`, and
`contract_type` itself when not. -/
theorem handleUpload_spec (out : Outcome) (toastId : Nat) (env : Env DashboardView) :
    (env.view.selectedFile.truthy = false → handleUpload out toastId env = (.ok (), env)) ∧
    (handleUpload out toastId env).2.sent = env.sent ++
      (if env.view.selectedFile.truthy = true ∧
          ¬ (env.view.uploadForm.contract_type = "custom" ∧
            isBlank env.view.uploadForm.custom_type = true) then
        [withBearer env.authToken
          (uploadRequest env.view.selectedFile env.view.uploadForm.title
            env.view.uploadForm.description
            (if env.view.uploadForm.contract_type = "custom" then
              jsTrim env.view.uploadForm.custom_type
             else env.view.uploadForm.contract_type))]
       else []) ∧
    (env.view.selectedFile.truthy = true → env.view.uploadForm.contract_type = "custom" →
      isBlank env.view.uploadForm.custom_type = true →
      (handleUpload out toastId env).1 = .ok () ∧
      (handleUpload out toastId env).2.toasts = env.toasts ++ [⟨toastId, "Please enter a custom contract type.", "warning", 5000⟩] ∧
      (handleUpload out toastId env).2.view.isUploading = false) ∧
    (isBlank env.view.uploadForm.custom_type = false →
      jsTrim env.view.uploadForm.custom_type ≠ "") ∧
    ((uploadRequest env.view.selectedFile env.view.uploadForm.title
        env.view.uploadForm.description
        (if env.view.uploadForm.contract_type = "custom" then
          jsTrim env.view.uploadForm.custom_type
         else env.view.uploadForm.contract_type)).data.prop "contract_type" =
      .str (if env.view.uploadForm.contract_type = "custom" then
          jsTrim env.view.uploadForm.custom_type
         else env.view.uploadForm.contract_type)) := by
  have hA : env.view.selectedFile.truthy = false → handleUpload out toastId env = (.ok (), env) := by
    intro hf
    simp [handleUpload, bind, Js.seq, Js.getView, hf, pure, Js.ret]
  refine ⟨hA, ?_, ?_, ?_, ?_⟩
  · by_cases hf : env.view.selectedFile.truthy = true
    · by_cases hv : env.view.uploadForm.contract_type = "custom" ∧
          isBlank env.view.uploadForm.custom_type = true
      · rw [handleUpload_blank_custom out toastId env hf hv.1 hv.2]
        simp [hv]
      · have hcond : env.view.selectedFile.truthy = true ∧
            ¬ (env.view.uploadForm.contract_type = "custom" ∧
              isBlank env.view.uploadForm.custom_type = true) := ⟨hf, hv⟩
        rw [(handleUpload_sends out toastId env hf hv).1, if_pos hcond]
    · rw [hA (Bool.eq_false_iff.2 hf)]
      simp [hf]
  · intro hf hc hb
    rw [handleUpload_blank_custom out toastId env hf hc hb]
    exact ⟨rfl, rfl, rfl⟩
  · intro hb ht
    rw [(jsTrim_eq_empty_iff _).1 ht] at hb
    cases hb
  · simp [uploadRequest, JsVal.prop, JsVal.lookupField]

/-! ## Claims on the rating of the feedback form -/

/-- The request interceptor keeps method and body. -/
theorem withBearer_method_data (stored : Option String) (config : Request) :
    (withBearer stored config).method = config.method ∧
    (withBearer stored config).data = config.data := by
  cases stored with
  | none => exact ⟨rfl, rfl⟩
  | some t => by_cases ht : t = "" <;> simp [withBearer, ht]

/-- What a click on `Submit Feedback` does to the draft and to the list of sent
requests. -/
theorem clickSubmitFeedback_effect (token : String) (submitOut commentsOut : Outcome)
    (toastId : Nat) (env : Env SharedView) :
    (clickSubmitFeedback token submitOut commentsOut toastId env).2.view.feedbackForm =
      (match submitOut with
       | .resolved _ => FeedbackForm.initial
       | .rejected _ => env.view.feedbackForm) ∧
    (clickSubmitFeedback token submitOut commentsOut toastId env).2.sent =
      env.sent ++ withBearer env.authToken
        { method := "POST", url := "/contracts/shared/" ++ token ++ "/feedback",
          headers := defaultHeaders, data := env.view.feedbackForm.toJs } ::
        (match submitOut with
         | .resolved _ => [withBearer env.authToken
            { method := "GET", url := "/contracts/shared/" ++ token ++ "/comments",
              headers := defaultHeaders, data := .undefined }]
         | .rejected _ => []) := by
  cases submitOut with
  | rejected resp =>
    cases h401 : (JsError.axios resp).statusIs401 <;>
    simp [clickSubmitFeedback, Js.getView, handleFeedbackSubmit, Js.tryFinally, Js.tryCatch,
      submitFeedback_run, bind, Js.seq, Js.setView, toast.error, showToast, afterRejection,
      h401, afterDispatch]
  | resolved r =>
    cases commentsOut with
    | resolved cr =>
      simp [clickSubmitFeedback, Js.getView, handleFeedbackSubmit, Js.tryFinally, Js.tryCatch,
        submitFeedback_run, bind, Js.seq, Js.setView, toast.success, showToast, afterDispatch,
        getSharedComments_run]
    | rejected cresp =>
      cases h401 : (JsError.axios cresp).statusIs401 <;>
      simp [clickSubmitFeedback, Js.getView, handleFeedbackSubmit, Js.tryFinally, Js.tryCatch,
        submitFeedback_run, bind, Js.seq, Js.setView, toast.error, showToast, afterDispatch,
        getSharedComments_run, afterRejection, h401]

/-- What a load does to the draft and to the list of sent requests. -/
theorem loadSharedContract_effect (token : String) (out : Outcome) (env : Env SharedView) :
    (loadSharedContract token out env).2.view.feedbackForm = env.view.feedbackForm ∧
    (loadSharedContract token out env).2.sent = env.sent ++ [withBearer env.authToken
      { method := "GET", url := "/contracts/shared/" ++ token, headers := defaultHeaders,
        data := .undefined }] := by
  cases out with
  | rejected resp =>
    cases h401 : (JsError.axios resp).statusIs401 <;>
    simp [loadSharedContract, Js.tryFinally, Js.tryCatch, getSharedContract_run, bind, Js.seq,
      Js.setView, afterRejection, h401, afterDispatch]
  | resolved r =>
    cases hn : r.data.isNullish <;>
    simp [loadSharedContract, Js.tryFinally, Js.tryCatch, getSharedContract_run, bind, Js.seq,
      Js.setView, JsVal.get, hn, Js.ofExcept, Js.ret, Js.throw, afterDispatch]

/-- A `GET` carries no feedback rating. -/
theorem feedbackRating_get (stored : Option String) (url : String) (v : JsVal) :
    feedbackRating (withBearer stored
      { method := "GET", url := url, headers := defaultHeaders, data := .undefined }) ≠
      some v := by
  simp [feedbackRating, (withBearer_method_data stored _).1]

/-- The rating a feedback request carries is the rating of the draft. -/
theorem feedbackRating_post (stored : Option String) (url : String) (f : FeedbackForm) :
    feedbackRating (withBearer stored
      { method := "POST", url := url, headers := defaultHeaders, data := f.toJs }) =
      some (.num f.rating) := by
  simp [feedbackRating, (withBearer_method_data stored _).1, (withBearer_method_data stored _).2,
    FeedbackForm.toJs, JsVal.prop, JsVal.lookupField]

/-- One operation offered by the page keeps the ratings in range. -/
theorem sharedOp_keeps_ratings (op : SharedOp) (env : Env SharedView)
    (hop : op.fromPage = true) (h : ratingsInRange env) : ratingsInRange (op.run env) := by
  obtain ⟨hr, hs⟩ := h
  cases op with
  | load token out =>
    obtain ⟨e1, e2⟩ := loadSharedContract_effect token out env
    refine ⟨by simp only [SharedOp.run]; rw [e1]; exact hr, ?_⟩
    intro r hmem v hv
    simp only [SharedOp.run] at hmem
    rw [e2, List.mem_append, List.mem_singleton] at hmem
    rcases hmem with hmem | hmem
    · exact hs r hmem v hv
    · subst hmem
      exact absurd hv (feedbackRating_get _ _ _)
  | submit token submitOut commentsOut toastId =>
    obtain ⟨e1, e2⟩ := clickSubmitFeedback_effect token submitOut commentsOut toastId env
    refine ⟨?_, ?_⟩
    · simp only [SharedOp.run]
      rw [e1]
      cases submitOut with
      | resolved r => rfl
      | rejected resp => exact hr
    · intro r hmem v hv
      simp only [SharedOp.run] at hmem
      rw [e2, List.mem_append, List.mem_cons] at hmem
      rcases hmem with hmem | hmem | hmem
      · exact hs r hmem v hv
      · subst hmem
        rw [feedbackRating_post] at hv
        cases hv
        exact hr
      · cases submitOut with
        | resolved sr =>
          rw [List.mem_singleton] at hmem
          subst hmem
          exact absurd hv (feedbackRating_get _ _ _)
        | rejected resp => cases hmem
  | editName value => exact ⟨hr, hs⟩
  | editEmail value => exact ⟨hr, hs⟩
  | editText value => exact ⟨hr, hs⟩
  | clickStar rating =>
    refine ⟨?_, hs⟩
    simp only [SharedOp.fromPage, decide_eq_true_eq] at hop
    simp only [SharedOp.run, ratingInRange, Bool.and_eq_true, decide_eq_true_eq]
    simp only [List.mem_cons, List.mem_singleton, List.not_mem_nil, or_false] at hop
    omega
  | openFeedback => exact ⟨hr, hs⟩
  | closeFeedback => exact ⟨hr, hs⟩

/-- C23: in every state of the shared view reached from a fresh mount through
the operations the page offers (loads, edits of name, email and text, clicks on
one of the five rating stars, submissions and the reset after a success), the
rating of the draft is an integer between 1 and 5, and so is the rating of every
feedback request sent; the rating is 5 initially and after every reset. -/
theorem rating_invariant (stored : Option String) (href : String) (ops : List SharedOp)
    (h : ∀ op ∈ ops, op.fromPage = true) :
    1 ≤ (runShared ops (freshSharedPage stored href)).view.feedbackForm.rating ∧
    (runShared ops (freshSharedPage stored href)).view.feedbackForm.rating ≤ 5 ∧
    (∀ r ∈ (runShared ops (freshSharedPage stored href)).sent, ∀ v,
      feedbackRating r = some v → ∃ n : Int, v = .num n ∧ 1 ≤ n ∧ n ≤ 5) ∧
    (freshSharedPage stored href).view.feedbackForm.rating = 5 ∧
    FeedbackForm.initial.rating = 5 := by
  have key : ∀ (l : List SharedOp) (env : Env SharedView),
      (∀ op ∈ l, op.fromPage = true) → ratingsInRange env → ratingsInRange (runShared l env) := by
    intro l
    induction l with
    | nil => exact fun env _ hinv => hinv
    | cons op rest ih =>
      intro env hl hinv
      exact ih (op.run env) (fun o ho => hl o (List.mem_cons_of_mem op ho))
        (sharedOp_keeps_ratings op env (hl op (List.mem_cons_self op rest)) hinv)
  have h0 : ratingsInRange (freshSharedPage stored href) :=
    ⟨rfl, fun r hr => by cases hr⟩
  obtain ⟨hr, hs⟩ := key ops _ h h0
  simp only [ratingInRange, Bool.and_eq_true, decide_eq_true_eq] at hr
  refine ⟨hr.1, hr.2, ?_, rfl, rfl⟩
  intro r hmem v hv
  have hv' := hs r hmem v hv
  cases v with
  | num n =>
    simp only [ratingInRange, Bool.and_eq_true, decide_eq_true_eq] at hv'
    exact ⟨n, rfl, hv'.1, hv'.2⟩
  | undefined => simp [ratingInRange] at hv'
  | null => simp [ratingInRange] at hv'
  | bool b => simp [ratingInRange] at hv'
  | str s => simp [ratingInRange] at hv'
  | arr items => simp [ratingInRange] at hv'
  | obj fields => simp [ratingInRange] at hv'

/-- C23, witness: a star click, an accepted submission and another star click. -/
theorem rating_invariant_witness :
    1 ≤ (runShared [.clickStar 2, .submit "tok" (.resolved ⟨200, .null⟩) (.rejected none) 7,
        .clickStar 4] (freshSharedPage none "/shared/tok")).view.feedbackForm.rating :=
  (rating_invariant none "/shared/tok" _ (by decide)).1

/-! ## The frame of the stored token -/

/-- Frame lemma `keepsToken_ret`: the stored token is left as it was. -/
theorem keepsToken_ret {σ α : Type} (a : α) : keepsToken (Js.ret a : Js σ α) := fun _ => rfl

/-- Frame lemma `keepsToken_pure`: the stored token is left as it was. -/
theorem keepsToken_pure {σ α : Type} (a : α) : keepsToken (pure a : Js σ α) := fun _ => rfl

/-- Frame lemma `keepsToken_throw`: the stored token is left as it was. -/
theorem keepsToken_throw {σ α : Type} (e : JsError) : keepsToken (Js.throw e : Js σ α) :=
  fun _ => rfl

/-- Frame lemma `keepsToken_seq`: the stored token is left as it was. -/
theorem keepsToken_seq {σ α β : Type} {m : Js σ α} {f : α → Js σ β}
    (hm : keepsToken m) (hf : ∀ a, keepsToken (f a)) : keepsToken (Js.seq m f) := by
  intro env
  unfold Js.seq
  have h := hm env
  rcases hme : m env with ⟨res, env1⟩
  rw [hme] at h
  cases res with
  | ok a => exact (hf a env1).trans h
  | error e => exact h

/-- Frame lemma `keepsToken_bind`: the stored token is left as it was. -/
theorem keepsToken_bind {σ α β : Type} {m : Js σ α} {f : α → Js σ β}
    (hm : keepsToken m) (hf : ∀ a, keepsToken (f a)) : keepsToken (m >>= f) :=
  keepsToken_seq hm hf

/-- Frame lemma `keepsToken_tryCatch`: the stored token is left as it was. -/
theorem keepsToken_tryCatch {σ α : Type} {body : Js σ α} {handler : JsError → Js σ α}
    (hb : keepsToken body) (hh : ∀ e, keepsToken (handler e)) :
    keepsToken (Js.tryCatch body handler) := by
  intro env
  unfold Js.tryCatch
  have h := hb env
  rcases hbe : body env with ⟨res, env1⟩
  rw [hbe] at h
  cases res with
  | ok a => exact h
  | error e => exact (hh e env1).trans h

/-- Frame lemma `keepsToken_tryFinally`: the stored token is left as it was. -/
theorem keepsToken_tryFinally {σ α : Type} {body : Js σ α} {cleanup : Js σ Unit}
    (hb : keepsToken body) (hc : keepsToken cleanup) :
    keepsToken (Js.tryFinally body cleanup) := by
  intro env
  unfold Js.tryFinally
  have h := hb env
  rcases hbe : body env with ⟨res, env1⟩
  rw [hbe] at h
  have h2 := hc env1
  rcases hce : cleanup env1 with ⟨res2, env2⟩
  rw [hce] at h2
  simp only [hce]
  cases res2 with
  | ok u => exact h2.trans h
  | error e => exact h2.trans h

/-- Frame lemma `keepsToken_setView`: the stored token is left as it was. -/
theorem keepsToken_setView {σ : Type} (f : σ → σ) : keepsToken (Js.setView f) := fun _ => rfl

/-- Frame lemma `keepsToken_getView`: the stored token is left as it was. -/
theorem keepsToken_getView {σ : Type} : keepsToken (Js.getView : Js σ σ) := fun _ => rfl

/-- Frame lemma `keepsToken_ofExcept`: the stored token is left as it was. -/
theorem keepsToken_ofExcept {σ α : Type} (x : Except JsError α) :
    keepsToken (Js.ofExcept x : Js σ α) := by
  cases x <;> exact fun _ => rfl

/-- Frame lemma `keepsToken_showToast`: the stored token is left as it was. -/
theorem keepsToken_showToast {σ : Type} (message : String) (type : Option String)
    (duration : Option Nat) (id : Nat) :
    keepsToken (showToast message type duration id : Js σ Unit) := fun _ => rfl

/-- Frame lemma `keepsToken_request`: the stored token is left as it was. -/
theorem keepsToken_request {σ : Type} (config : Request) (out : Outcome)
    (h : out.is401 = false) : keepsToken (api.request config out : Js σ HttpResponse) := by
  intro env
  rw [api_request_run]
  cases out with
  | resolved r => rfl
  | rejected resp => simp only [afterRejection_of_not401 _ _ h]; rfl

/-- Frame lemma `keepsToken_send`: the stored token is left as it was. -/
theorem keepsToken_send {σ : Type} (config : Request) :
    keepsToken (api.send config : Js σ Unit) := by
  intro env
  rw [api_send_run]
  rfl

/-- Frame lemma `keepsToken_receive`: the stored token is left as it was. -/
theorem keepsToken_receive {σ : Type} (out : Outcome) (h : out.is401 = false) :
    keepsToken (api.receive out : Js σ HttpResponse) := by
  intro env
  rw [api_receive_run]
  cases out with
  | resolved r => rfl
  | rejected resp => simp only [afterRejection_of_not401 _ _ h]

/-- Frame lemma `keepsToken_requestInterceptor`: the stored token is left as it was. -/
theorem keepsToken_requestInterceptor {σ : Type} (config : Request) :
    keepsToken (requestInterceptor config : Js σ Request) := by
  intro env
  rw [requestInterceptor_run]

/-- Frame lemma `keepsToken_responseInterceptorError`: the stored token is left as it was. -/
theorem keepsToken_responseInterceptorError {σ α : Type} (error : JsError)
    (h : error.statusIs401 = false) : keepsToken (responseInterceptorError error : Js σ α) := by
  intro env
  rw [responseInterceptorError_run]
  simp [afterRejection, h]

/-- Frame lemma `keepsToken_checkAuth_resolved`: the stored token is left as it was. -/
theorem keepsToken_checkAuth_resolved (r : HttpResponse) :
    keepsToken (checkAuth (.resolved r)) := by
  intro env
  rw [checkAuth_run]
  cases storedTokenTruthy env.authToken <;> rfl

/-- Frame lemma `keepsToken_loadStart`: the stored token is left as it was. -/
theorem keepsToken_loadStart (token : String) : keepsToken (loadSharedContractStart token) :=
  keepsToken_send _

/-- Frame lemma `keepsToken_loadResume`: the stored token is left as it was. -/
theorem keepsToken_loadResume (out : Outcome) (h : out.is401 = false) :
    keepsToken (loadSharedContractResume out) := by
  intro env
  cases out with
  | rejected resp =>
    simp [loadSharedContractResume, Js.tryFinally, Js.tryCatch, api_receive_run, bind, Js.seq,
      Js.setView, afterRejection_of_not401 _ _ h]
  | resolved r =>
    cases hn : r.data.isNullish <;>
    simp [loadSharedContractResume, Js.tryFinally, Js.tryCatch, api_receive_run, bind, Js.seq,
      Js.setView, JsVal.get, hn, Js.ofExcept, Js.ret, Js.throw]

/-- Frame lemma `keepsToken_load`: the stored token is left as it was. -/
theorem keepsToken_load (token : String) (out : Outcome) (h : out.is401 = false) :
    keepsToken (loadSharedContract token out) := by
  intro env
  rw [loadSharedContract_split]
  exact (keepsToken_loadResume out h _).trans (keepsToken_loadStart token env)

/-- Frame lemma `keepsToken_feedback`: the stored token is left as it was. -/
theorem keepsToken_feedback (token : String) (feedbackForm : FeedbackForm)
    (submitOut commentsOut : Outcome) (toastId : Nat) (h : submitOut.is401 = false)
    (h2 : commentsOut.is401 = false) :
    keepsToken (handleFeedbackSubmit token feedbackForm submitOut commentsOut toastId) := by
  intro env
  cases submitOut with
  | rejected resp =>
    simp [handleFeedbackSubmit, Js.tryFinally, Js.tryCatch, submitFeedback_run, bind, Js.seq,
      Js.setView, toast.error, showToast, afterRejection_of_not401 _ _ h, afterDispatch]
  | resolved sr =>
    cases commentsOut with
    | resolved cr =>
      simp [handleFeedbackSubmit, Js.tryFinally, Js.tryCatch, submitFeedback_run, bind, Js.seq,
        Js.setView, toast.success, showToast, afterDispatch, getSharedComments_run]
    | rejected cresp =>
      simp [handleFeedbackSubmit, Js.tryFinally, Js.tryCatch, submitFeedback_run, bind, Js.seq,
        Js.setView, toast.error, showToast, afterDispatch, getSharedComments_run,
        afterRejection_of_not401 _ _ h2]

/-- Frame lemma `keepsToken_click`: the stored token is left as it was. -/
theorem keepsToken_click (token : String) (submitOut commentsOut : Outcome) (toastId : Nat)
    (h : submitOut.is401 = false) (h2 : commentsOut.is401 = false) :
    keepsToken (clickSubmitFeedback token submitOut commentsOut toastId) := fun env =>
  keepsToken_feedback token env.view.feedbackForm submitOut commentsOut toastId h h2 env

/-- Frame lemma `sharedOp_keepsToken`: the stored token is left as it was. -/
theorem sharedOp_keepsToken (op : SharedOp) (env : Env SharedView)
    (h : op.answered401 = false) : (op.run env).authToken = env.authToken := by
  cases op with
  | load token out => exact keepsToken_load token out h env
  | submit token submitOut commentsOut toastId =>
    simp only [SharedOp.answered401, Bool.or_eq_false_iff] at h
    exact keepsToken_click token submitOut commentsOut toastId h.1 h.2 env
  | editName value => rfl
  | editEmail value => rfl
  | editText value => rfl
  | clickStar rating => rfl
  | openFeedback => rfl
  | closeFeedback => rfl

/-- Frame lemma `runShared_keepsToken`: the stored token is left as it was. -/
theorem runShared_keepsToken (ops : List SharedOp) (env : Env SharedView)
    (h : ∀ op ∈ ops, op.answered401 = false) : (runShared ops env).authToken = env.authToken := by
  induction ops generalizing env with
  | nil => rfl
  | cons op rest ih =>
    exact (ih (op.run env) fun o ho => h o (List.mem_cons_of_mem op ho)).trans
      (sharedOp_keepsToken op env (h op (List.mem_cons_self op rest)))

/-- Frame lemma `keepsToken_submitStart`: the stored token is left as it was. -/
theorem keepsToken_submitStart : keepsToken handleSubmitStart := by
  intro env
  by_cases h1 : env.view.formData.newPassword ≠ env.view.formData.confirmPassword
  · simp [handleSubmitStart, bind, Js.seq, Js.getView, Js.setView, h1, pure, Js.ret]
  · by_cases h8 : jsLength env.view.formData.newPassword < 8
    · simp [handleSubmitStart, bind, Js.seq, Js.getView, Js.setView, h1, h8, pure, Js.ret]
    · by_cases hs : env.view.formData.currentPassword = env.view.formData.newPassword
      · simp [handleSubmitStart, bind, Js.seq, Js.getView, Js.setView, h1, h8, hs, pure, Js.ret]
      · simp [handleSubmitStart, bind, Js.seq, Js.getView, Js.setView, h1, h8, hs, pure, Js.ret,
          api_send_run, afterDispatch]

/-- Frame lemma `keepsToken_submitResume`: the stored token is left as it was. -/
theorem keepsToken_submitResume (out : Outcome) (h : out.is401 = false) :
    keepsToken (handleSubmitResume out) := by
  intro env
  cases out with
  | resolved r =>
    simp [handleSubmitResume, Js.tryFinally, Js.tryCatch, api_receive_run, bind, Js.seq,
      Js.setView]
  | rejected resp =>
    simp [handleSubmitResume, Js.tryFinally, Js.tryCatch, api_receive_run, bind, Js.seq,
      Js.setView, afterRejection_of_not401 _ _ h]

/-- Frame lemma `keepsToken_submitInTwo`: the stored token is left as it was. -/
theorem keepsToken_submitInTwo (out : Outcome) (h : out.is401 = false) :
    keepsToken (handleSubmitInTwo out) := by
  unfold handleSubmitInTwo
  refine keepsToken_bind keepsToken_submitStart fun issued => ?_
  cases issued
  · exact keepsToken_pure _
  · exact keepsToken_submitResume out h

/-- Frame lemma `keepsToken_handleSubmit`: the stored token is left as it was. -/
theorem keepsToken_handleSubmit (out : Outcome) (h : out.is401 = false) :
    keepsToken (handleSubmit out) := by
  intro env
  rw [handleSubmit_split]
  exact keepsToken_submitInTwo out h env

/-- Frame lemma `keepsToken_data`: the stored token is left as it was. -/
theorem keepsToken_data {σ : Type} (config : Request) (out : Outcome) (h : out.is401 = false) :
    keepsToken (Js.seq (api.request config out) fun response => Js.ret response.data
      : Js σ JsVal) :=
  keepsToken_seq (keepsToken_request config out h) fun _ => keepsToken_ret _

/-- Frame lemma `keepsToken_mutateAsync`: the stored token is left as it was. -/
theorem keepsToken_mutateAsync (file : JsVal) (metadata : List (String × JsVal))
    (out : Outcome) (toastId : Nat) (h : out.is401 = false) :
    keepsToken (uploadMutation.mutateAsync file metadata out toastId) := by
  have hu : keepsToken (contractsAPI.upload file metadata out : Js DashboardView JsVal) :=
    keepsToken_data _ out h
  unfold uploadMutation.mutateAsync
  refine keepsToken_tryCatch ?_ fun e => ?_
  · refine keepsToken_bind hu fun result => ?_
    refine keepsToken_bind (keepsToken_setView _) fun _ => ?_
    refine keepsToken_bind (keepsToken_setView _) fun _ => ?_
    refine keepsToken_bind (keepsToken_setView _) fun _ => ?_
    exact keepsToken_bind (keepsToken_showToast _ _ _ _) fun _ => keepsToken_pure _
  · exact keepsToken_bind (keepsToken_showToast _ _ _ _) fun _ => keepsToken_throw _

/-- Frame lemma `keepsToken_handleUpload`: the stored token is left as it was. -/
theorem keepsToken_handleUpload (out : Outcome) (toastId : Nat) (h : out.is401 = false) :
    keepsToken (handleUpload out toastId) := by
  unfold handleUpload
  refine keepsToken_bind keepsToken_getView fun s => ?_
  show keepsToken (if (!s.selectedFile.truthy) = true then _ else _)
  split
  · exact keepsToken_pure _
  · refine keepsToken_bind (keepsToken_setView _) fun _ => ?_
    refine keepsToken_tryFinally ?_ (keepsToken_setView _)
    split
    · exact keepsToken_bind (keepsToken_showToast _ _ _ _) fun _ => keepsToken_setView _
    · exact keepsToken_bind (keepsToken_mutateAsync _ _ _ _ h) fun _ => keepsToken_pure _

/-- Frame lemma `afterTwoLoads_keepsToken`: the stored token is left as it was. -/
theorem afterTwoLoads_keepsToken (oldToken newToken : String) (oldOut newOut : Outcome)
    (staleLast : Bool) (env : Env SharedView) (h1 : oldOut.is401 = false)
    (h2 : newOut.is401 = false) :
    (afterTwoLoads oldToken newToken oldOut newOut staleLast env).authToken = env.authToken := by
  cases staleLast
  · exact (keepsToken_loadResume newOut h2 _).trans ((keepsToken_loadResume oldOut h1 _).trans
      ((keepsToken_loadStart newToken _).trans (keepsToken_loadStart oldToken env)))
  · exact (keepsToken_loadResume oldOut h1 _).trans ((keepsToken_loadResume newOut h2 _).trans
      ((keepsToken_loadStart newToken _).trans (keepsToken_loadStart oldToken env)))

/-- C17, amended: the value stored under `'authToken'` is written only by
`login` and `register` (set) and by `logout`, the 401 response interceptor and
`checkAuth` after a failed user resolution (clear).  Every other operation of
the client leaves it as it was, whatever its outcome short of a 401: both
interceptors, every request through `api` and every function of
`services/api.js` (each is such a request followed by `response.data`), the
toast operations, `checkAuth` after a successful resolution or without a usable
token, every operation of the shared view, every sequence of them and two
overlapping loads, the `handleSubmit` of the change-password page and the
upload of the dashboard, whole and in their halves. -/
theorem authToken_frame {σ : Type} (config : Request) (out out2 : Outcome) (token : String)
    (feedbackForm : FeedbackForm) (toastId : Nat) (message : String) (type : Option String)
    (duration : Option Nat) (r : HttpResponse) (resp : Option HttpResponse)
    (envA : Env AuthState) (envS : Env SharedView) (envP : Env ChangePasswordView)
    (error : JsError) (url : String) (data : JsVal) (metadata : List (String × JsVal))
    (current new : String) (f : σ → σ) (ops : List SharedOp) (staleLast : Bool)
    (h : out.is401 = false) (h2 : out2.is401 = false) (he : error.statusIs401 = false)
    (hops : ∀ op ∈ ops, op.answered401 = false) :
    (api.request config out envA).2.authToken = envA.authToken ∧
    (loadSharedContract token out envS).2.authToken = envS.authToken ∧
    (handleFeedbackSubmit token feedbackForm out out2 toastId envS).2.authToken
      = envS.authToken ∧
    (handleSubmit out envP).2.authToken = envP.authToken ∧
    (checkAuth (.resolved r) envA).2.authToken = envA.authToken ∧
    (checkAuth (.rejected resp) envA).2.authToken =
      (if storedTokenTruthy envA.authToken then none else envA.authToken) ∧
    (showToast message type duration toastId envA).2.authToken = envA.authToken ∧
    keepsToken (requestInterceptor config : Js σ Request) ∧
    keepsToken (responseInterceptorError error : Js σ HttpResponse) ∧
    keepsToken (dispatch config : Js σ Unit) ∧
    keepsToken (api.send config : Js σ Unit) ∧
    keepsToken (api.receive out : Js σ HttpResponse) ∧
    keepsToken (api.request config out : Js σ HttpResponse) ∧
    keepsToken (api.get url out : Js σ HttpResponse) ∧
    keepsToken (api.post url data out : Js σ HttpResponse) ∧
    keepsToken (Js.seq (api.request config out) fun response => Js.ret response.data
      : Js σ JsVal) ∧
    keepsToken (authAPI.login data out : Js σ JsVal) ∧
    keepsToken (authAPI.register data out : Js σ JsVal) ∧
    keepsToken (authAPI.getCurrentUser out : Js σ JsVal) ∧
    keepsToken (authAPI.updatePassword current new out : Js σ JsVal) ∧
    keepsToken (sharingAPI.getSharedContract token out : Js σ JsVal) ∧
    keepsToken (sharingAPI.submitFeedback token data out : Js σ JsVal) ∧
    keepsToken (sharingAPI.getSharedComments token out : Js σ JsVal) ∧
    keepsToken (contractsAPI.upload data metadata out : Js σ JsVal) ∧
    keepsToken (showToast message type duration toastId : Js σ Unit) ∧
    keepsToken (toast.success message toastId : Js σ Unit) ∧
    keepsToken (toast.error message toastId : Js σ Unit) ∧
    keepsToken (toast.warning message toastId : Js σ Unit) ∧
    keepsToken (removeToast toastId : Js σ Unit) ∧
    keepsToken (setLocationHref url : Js σ Unit) ∧
    keepsToken (localStorage.getItem : Js σ (Option String)) ∧
    keepsToken (Js.setView f) ∧
    keepsToken (checkAuth (.resolved r)) ∧
    keepsToken (loadSharedContract token out) ∧
    keepsToken (loadSharedContractStart token) ∧
    keepsToken (loadSharedContractResume out) ∧
    keepsToken (handleFeedbackSubmit token feedbackForm out out2 toastId) ∧
    keepsToken (clickSubmitFeedback token out out2 toastId) ∧
    (runShared ops envS).authToken = envS.authToken ∧
    (afterTwoLoads token url out out2 staleLast envS).authToken = envS.authToken ∧
    keepsToken (handleSubmit out) ∧
    keepsToken handleSubmitStart ∧
    keepsToken (handleSubmitResume out) ∧
    keepsToken (handleSubmitInTwo out) ∧
    keepsToken (uploadMutation.mutateAsync data metadata out toastId) ∧
    keepsToken (handleUpload out toastId) := by
  refine ⟨keepsToken_request config out h envA, keepsToken_load token out h envS,
    keepsToken_feedback token feedbackForm out out2 toastId h h2 envS,
    keepsToken_handleSubmit out h envP, keepsToken_checkAuth_resolved r envA, ?_, rfl,
    keepsToken_requestInterceptor config, keepsToken_responseInterceptorError error he,
    fun _ => rfl, keepsToken_send config, keepsToken_receive out h,
    keepsToken_request config out h, keepsToken_request _ out h, keepsToken_request _ out h,
    keepsToken_data config out h, keepsToken_data _ out h, keepsToken_data _ out h,
    keepsToken_data _ out h, keepsToken_data _ out h, keepsToken_data _ out h,
    keepsToken_data _ out h, keepsToken_data _ out h, keepsToken_data _ out h,
    keepsToken_showToast _ _ _ _, keepsToken_showToast _ _ _ _, keepsToken_showToast _ _ _ _,
    keepsToken_showToast _ _ _ _, fun _ => rfl, fun _ => rfl, fun _ => rfl,
    keepsToken_setView f, keepsToken_checkAuth_resolved r, keepsToken_load token out h,
    keepsToken_loadStart token, keepsToken_loadResume out h,
    keepsToken_feedback token feedbackForm out out2 toastId h h2,
    keepsToken_click token out out2 toastId h h2, runShared_keepsToken ops envS hops,
    afterTwoLoads_keepsToken token url out out2 staleLast envS h h2,
    keepsToken_handleSubmit out h, keepsToken_submitStart, keepsToken_submitResume out h,
    keepsToken_submitInTwo out h, keepsToken_mutateAsync data metadata out toastId h,
    keepsToken_handleUpload out toastId h⟩
  rw [checkAuth_run]
  cases storedTokenTruthy envA.authToken <;> rfl

/-- C17, witness: calls answered 404 and 500, and a run of the shared view. -/
theorem authToken_frame_witness :
    (loadSharedContract "tok" (.rejected (some ⟨404, .null⟩)) signedInSharedPage).2.authToken
      = some "abc" :=
  (authToken_frame (σ := SharedView) ⟨"GET", "/contracts/", defaultHeaders, .undefined⟩
    (.rejected (some ⟨404, .null⟩)) (.rejected (some ⟨500, .null⟩)) "tok" FeedbackForm.initial
    7 "Saved" none none ⟨200, .null⟩ none signedInMount signedInSharedPage
    (passwordPage ⟨"old-password", "new-password", "new-password"⟩)
    (.axios (some ⟨500, .null⟩)) "/contracts/" .null [] "old-password" "new-password" id
    [.load "tok" (.rejected none), .clickStar 3] true rfl rfl rfl (by decide)).2.1

end ContractRisk
